import Mathlib

/-!
# provider-vra: the Terraform setup function and the provider schema loader

A shallow embedding of

* `internal/clients/vra.go`: `TerraformSetupBuilder` and
  `configureNoForkVaultClient`;
* `config/provider.go`: `getProviderSchema`.

Both functions are glue around libraries that are not part of the repository
(the Kubernetes client, the crossplane-runtime usage tracker and credential
extractor, the Terraform plugin SDK, `encoding/json`, `terraform-json`,
upjet).  Calls into those libraries are taken as parameters (the fields of
`Env`, the arguments of `getProviderSchema`), so every theorem holds for every
behaviour of the libraries.  What the repository's code itself does with
their results (the order of the steps, the early returns, the error wrapping,
the copying of the recognised keys, the by-value provider argument) is
translated statement by statement.

Go values are embedded as follows.

* `error` is `Option GoError`; `nil` is `none`.
* A Go map with string keys is an association list read with `GoMap.lookup`
  and written with `GoMap.set`; a `nil` map that is only read is the empty
  list.  Where the code distinguishes `nil` from an empty map
  (`Setup.Configuration`) the field is an `Option`.
* The credential bytes are represented by what Go's JSON scanner makes of
  them: a scan failure or the JSON value they denote (`Payload`).
* A call that may panic returns an `Exec`.
-/

namespace ProviderVra

/-! ## Errors (`github.com/pkg/errors`) -/

/-- A non-nil Go error: either a leaf error carrying its message (what
`errors.New` and `errors.Errorf` build, and what a library error looks like from
outside) or an error built by `errors.Wrap` around a cause.  Stack traces are
not represented. -/
inductive GoError where
  | new (msg : String)
  | wrap (cause : GoError) (msg : String)
  deriving DecidableEq, Repr

namespace GoError

/-- The `Error()` method: a wrapped error prints its own message, a colon and
the message of its cause. -/
def Error : GoError → String
  | new msg => msg
  | wrap cause msg => msg ++ ": " ++ cause.Error

/-- The direct cause of an error, if it wraps one. -/
def Unwrap : GoError → Option GoError
  | new _ => none
  | wrap cause _ => some cause

end GoError

namespace errors

/-- Embedding of `errors.New(message)`. -/
def New (message : String) : Option GoError :=
  some (GoError.new message)

/-- Embedding of `errors.Wrap(err, message)`: `nil` for a `nil` error. -/
def Wrap (err : Option GoError) (message : String) : Option GoError :=
  match err with
  | none => none
  | some e => some (GoError.wrap e message)

/-- Embedding of `errors.Errorf(format, args...)`, applied to the already
formatted message. -/
def Errorf (formatted : String) : Option GoError :=
  some (GoError.new formatted)

end errors

/-! ## Go maps with string keys -/

/-- A Go `map[string]V`. -/
abbrev GoMap (V : Type) := List (String × V)

namespace GoMap

/-- The two-valued read `v, ok := m[k]`: `none` when `ok` is false. -/
def lookup {V : Type} (m : GoMap V) (k : String) : Option V :=
  List.lookup k m

/-- The assignment `m[k] = v`. -/
def set {V : Type} (m : GoMap V) (k : String) (v : V) : GoMap V :=
  (k, v) :: m.filter (fun e => e.1 != k)

/-- The keys of the map. -/
def keys {V : Type} (m : GoMap V) : List String :=
  m.map Prod.fst

/-- The builtin `len(m)`. -/
def len {V : Type} (m : GoMap V) : Nat :=
  m.length

end GoMap

/-! ## Constants of `internal/clients/vra.go` -/

def errNoProviderConfig : String := "no providerConfigRef provided"
def errGetProviderConfig : String := "cannot get referenced ProviderConfig"
def errTrackUsage : String := "cannot track ProviderConfig usage"
def errExtractCredentials : String := "cannot extract credentials"
def errUnmarshalCredentials : String := "cannot unmarshal vRA credentials as JSON"

def keyURL : String := "url"
def keyAccessToken : String := "access_token"
def keyRefreshToken : String := "refresh_token"
def keyInsecure : String := "insecure"
def keyReauthorizeTimeout : String := "reauthorize_timeout"
def keyApiTimeout : String := "api_timeout"

/-- The six keys the setup function copies, in the order of its `if`
statements. -/
def recognizedKeys : List String :=
  [keyURL, keyAccessToken, keyRefreshToken, keyInsecure, keyReauthorizeTimeout, keyApiTimeout]

/-! ## `encoding/json`: decoding into `map[string]string` -/

/-- A JSON value. -/
inductive JSON where
  | null
  | bool (b : Bool)
  | number (literal : String)
  | str (s : String)
  | arr (elems : List JSON)
  | obj (members : List (String × JSON))

/-- The credential bytes as Go's JSON scanner sees them: bytes that are not a
JSON text (with the scanner's error, a `*json.SyntaxError`), or the JSON value
the bytes denote.  Members of an object are in document order. -/
inductive Payload where
  | malformed (err : GoError)
  | parsed (v : JSON)

namespace json

/-- The `*json.UnmarshalTypeError` for a JSON value of kind `value` met where
the Go type `goType` is expected. -/
def typeError (value goType : String) : GoError :=
  GoError.new ("json: cannot unmarshal " ++ value ++ " into Go value of type " ++ goType)

/-- Decoding one JSON value into a Go `string`: a JSON string is stored, JSON
`null` leaves the zero value, every other kind is a type error. -/
def decodeString : JSON → Except GoError String
  | JSON.str s => Except.ok s
  | JSON.null => Except.ok ""
  | JSON.bool _ => Except.error (typeError "bool" "string")
  | JSON.number _ => Except.error (typeError "number" "string")
  | JSON.arr _ => Except.error (typeError "array" "string")
  | JSON.obj _ => Except.error (typeError "object" "string")

/-- Decoding the members of a JSON object into a `map[string]string`, in
document order.  A member whose value is not a string stores the zero value
under its key, and the decoder goes on; the first such error is the one that
is kept (`saveError`). -/
def decodeMembers : List (String × JSON) → GoMap String → Option GoError →
    GoMap String × Option GoError
  | [], m, saved => (m, saved)
  | (k, v) :: rest, m, saved =>
    match decodeString v with
    | Except.ok s => decodeMembers rest (GoMap.set m k s) saved
    | Except.error e =>
      decodeMembers rest (GoMap.set m k "")
        (match saved with
         | some first => some first
         | none => some e)

/-- Embedding of `json.Unmarshal(data, &v)` for `v` of type
`map[string]string`: the map after the call and the returned error.  Bytes
that are not JSON are rejected before anything is stored; JSON `null` sets the
map to `nil` and is no error; an object is decoded member by member into the
existing map; every other JSON value is a type error. -/
def Unmarshal (data : Payload) (v : GoMap String) : GoMap String × Option GoError :=
  match data with
  | Payload.malformed err => (v, some err)
  | Payload.parsed JSON.null => ([], none)
  | Payload.parsed (JSON.obj members) => decodeMembers members v none
  | Payload.parsed (JSON.bool _) => (v, some (typeError "bool" "map[string]string"))
  | Payload.parsed (JSON.number _) => (v, some (typeError "number" "map[string]string"))
  | Payload.parsed (JSON.str _) => (v, some (typeError "string" "map[string]string"))
  | Payload.parsed (JSON.arr _) => (v, some (typeError "array" "map[string]string"))

end json

/-! ## Cluster objects (crossplane-runtime, `apis/v1beta1`) -/

/-- The type `xpv1.Reference`: the name of the referenced object. -/
structure Reference where
  Name : String
  deriving DecidableEq, Repr

/-- A managed resource, as far as the setup function looks at it: its name and
what `GetProviderConfigReference()` returns (`none` for `nil`). -/
structure Managed where
  Name : String
  ProviderConfigReference : Option Reference
  deriving DecidableEq, Repr

/-- The method `mg.GetProviderConfigReference()`. -/
def Managed.GetProviderConfigReference (mg : Managed) : Option Reference :=
  mg.ProviderConfigReference

/-- The type `xpv1.SecretKeySelector`. -/
structure SecretKeySelector where
  Namespace : String
  Name : String
  Key : String
  deriving DecidableEq, Repr

/-- The type `xpv1.CommonCredentialSelectors`: where the credentials are read from. -/
structure CommonCredentialSelectors where
  Fs : Option String
  Env : Option String
  SecretRef : Option SecretKeySelector
  deriving DecidableEq, Repr

/-- The type `v1beta1.ProviderCredentials`. -/
structure ProviderCredentials where
  Source : String
  CommonCredentialSelectors : CommonCredentialSelectors
  deriving DecidableEq, Repr

/-- The type `v1beta1.ProviderConfig`, reduced to `Spec.Credentials`. -/
structure ProviderConfig where
  Credentials : ProviderCredentials
  deriving DecidableEq, Repr

/-! ## Terraform plugin SDK: diagnostics and the provider -/

/-- The type `diag.Severity`. -/
inductive Severity where
  | Error
  | Warning
  deriving DecidableEq, Repr

/-- The type `diag.Diagnostic`. -/
structure Diagnostic where
  Severity : Severity
  Summary : String
  Detail : String
  deriving DecidableEq, Repr

/-- The type `diag.Diagnostics`: a slice of diagnostics, `none` for the `nil` slice. -/
abbrev Diagnostics := Option (List Diagnostic)

/-- The method `Diagnostics.HasError()`: some diagnostic has severity `Error`.
It is false on the `nil` slice. -/
def Diagnostics.HasError : Diagnostics → Bool
  | none => false
  | some ds => ds.any (fun d => d.Severity == Severity.Error)

/-- The value a provider keeps as its meta (an `interface{}` in Go). -/
abbrev MetaValue := String

/-- The mutable fields of a `schema.Provider` struct: what `Configure` may
write.  The struct is copied as a whole by a dereference `*tfProvider`. -/
structure Provider where
  meta : Option MetaValue
  configured : Bool
  TerraformVersion : String
  deriving DecidableEq, Repr

/-- The method `p.Meta()`. -/
def Provider.Meta (p : Provider) : Option MetaValue :=
  p.meta

/-- The type `terraform.Setup` of upjet, reduced to the two fields the setup function
writes.  The zero value has both `nil`. -/
structure Setup where
  Configuration : Option (GoMap String) := none
  Meta : Option MetaValue := none
  deriving DecidableEq, Repr

/-! ## The libraries the setup function calls -/

/-- The behaviour of the library calls made by the setup function during one
execution.

* `Get name` is `client.Get(ctx, types.NamespacedName{Name: name}, pc)`: the
  error, or the `ProviderConfig` stored into `pc`.
* `Track mg` is `t.Track(ctx, mg)` of the usage tracker.
* `CommonCredentialExtractor source selectors` is the crossplane-runtime
  function of that name.
* `Configure p config` is the SDK method `p.Configure(ctx,
  &ResourceConfig{Config: config})` on the receiver whose fields are `p`: the
  diagnostics it returns and the receiver's fields afterwards.
* `formatDiagnostics diag` is the text `fmt` produces for `diag` under `%v`. -/
structure Env where
  Get : String → Except GoError ProviderConfig
  Track : Managed → Option GoError
  CommonCredentialExtractor : String → CommonCredentialSelectors → Except GoError Payload
  Configure : Provider → Option (GoMap String) → Diagnostics × Provider
  formatDiagnostics : Diagnostics → String

/-- A library call made by the setup function, with its arguments.  For
`Configure` the fields of the receiver at the time of the call are recorded
next to the `ResourceConfig.Config` argument. -/
inductive Event where
  | Get (name : String)
  | Track (mg : Managed)
  | CommonCredentialExtractor (source : String) (selectors : CommonCredentialSelectors)
  | Configure (receiver : Provider) (config : Option (GoMap String))
  deriving DecidableEq, Repr

/-- The `ResourceConfig.Config` arguments of the `Configure` calls in a list of
calls, in order. -/
def configureCalls : List Event → List (Option (GoMap String))
  | [] => []
  | Event.Configure _ config :: rest => config :: configureCalls rest
  | _ :: rest => configureCalls rest

/-- The receivers of the `Configure` calls in a list of calls, in order. -/
def configureReceivers : List Event → List Provider
  | [] => []
  | Event.Configure receiver _ :: rest => receiver :: configureReceivers rest
  | _ :: rest => configureReceivers rest

/-! ## `internal/clients/vra.go` -/

/-- One of the six statements
`if v, ok := vraCreds[key]; ok { ps.Configuration[key] = v }`. -/
def copyKey (vraCreds : GoMap String) (key : String) (configuration : GoMap String) :
    GoMap String :=
  match GoMap.lookup vraCreds key with
  | some v => GoMap.set configuration key v
  | none => configuration

/-- Lines 74 to 92 of `vra.go`: `ps.Configuration` starts as an empty map and
the six recognised keys are copied in source order. -/
def buildConfiguration (vraCreds : GoMap String) : GoMap String :=
  copyKey vraCreds keyApiTimeout
    (copyKey vraCreds keyReauthorizeTimeout
      (copyKey vraCreds keyInsecure
        (copyKey vraCreds keyRefreshToken
          (copyKey vraCreds keyAccessToken
            (copyKey vraCreds keyURL [])))))

/-- What a call of `configureNoForkVaultClient` leaves behind: the returned
error, the `Setup` behind the pointer `ps`, the callee's own provider value
(its parameter `p`, dropped when the function returns) and the library
calls made. -/
structure ConfigureOutcome where
  err : Option GoError
  ps : Setup
  p : Provider
  calls : List Event
  deriving DecidableEq, Repr

/-- Embedding of `configureNoForkVaultClient(ctx, ps, p)`.  The parameter `p`
is a `schema.Provider` value, so `Configure` runs on the callee's copy. -/
def configureNoForkVaultClient (env : Env) (ps : Setup) (p : Provider) : ConfigureOutcome :=
  let calls := [Event.Configure p ps.Configuration]
  let configured := env.Configure p ps.Configuration
  let diag := configured.1
  let p := configured.2
  if diag.isSome && Diagnostics.HasError diag then
    { err := errors.Errorf
        ("failed to configure the provider: " ++ env.formatDiagnostics diag),
      ps := ps, p := p, calls := calls }
  else
    { err := none, ps := { ps with Meta := p.Meta }, p := p, calls := calls }

/-- What one execution of the setup function leaves behind: the returned
`Setup` and error, the library calls it made (in order), and the fields of the
provider object behind the shared pointer `tfProvider` after the call. -/
structure SetupOutcome where
  ps : Setup
  err : Option GoError
  calls : List Event
  tfProvider : Provider
  deriving DecidableEq, Repr

/-- Embedding of the function returned by `TerraformSetupBuilder(tfProvider)`,
run on the managed resource `mg` while the object behind `tfProvider` has the
fields `tfProvider`.  Both `tfProvider` and `mg` are non-nil.  In the final
`return ps, errors.Wrap(...)` the call is evaluated before `ps` is read, as the
Go compiler does for a variable whose address is taken.  The shared provider
is only read (`*tfProvider` copies the struct into the callee's parameter), so
its fields after the call are those before it. -/
def TerraformSetupBuilder (env : Env) (tfProvider : Provider) (mg : Managed) : SetupOutcome :=
  let ps : Setup := {}
  match mg.GetProviderConfigReference with
  | none =>
    { ps := ps, err := errors.New errNoProviderConfig, calls := [], tfProvider := tfProvider }
  | some configRef =>
    let calls := [Event.Get configRef.Name]
    match env.Get configRef.Name with
    | Except.error err =>
      { ps := ps, err := errors.Wrap (some err) errGetProviderConfig, calls := calls,
        tfProvider := tfProvider }
    | Except.ok pc =>
      let calls := calls ++ [Event.Track mg]
      match env.Track mg with
      | some err =>
        { ps := ps, err := errors.Wrap (some err) errTrackUsage, calls := calls,
          tfProvider := tfProvider }
      | none =>
        let calls := calls ++
          [Event.CommonCredentialExtractor pc.Credentials.Source
            pc.Credentials.CommonCredentialSelectors]
        match env.CommonCredentialExtractor pc.Credentials.Source
            pc.Credentials.CommonCredentialSelectors with
        | Except.error err =>
          { ps := ps, err := errors.Wrap (some err) errExtractCredentials, calls := calls,
            tfProvider := tfProvider }
        | Except.ok data =>
          match json.Unmarshal data [] with
          | (_, some err) =>
            { ps := ps, err := errors.Wrap (some err) errUnmarshalCredentials, calls := calls,
              tfProvider := tfProvider }
          | (vraCreds, none) =>
            let ps : Setup := { ps with Configuration := some (buildConfiguration vraCreds) }
            let r := configureNoForkVaultClient env ps tfProvider
            { ps := r.ps,
              err := errors.Wrap r.err "failed to configure the no-fork GCP client",
              calls := calls ++ r.calls,
              tfProvider := tfProvider }

/-- The setup function run once per entry of a list of calls (each with the
behaviour of the libraries during that call and its managed resource), one
after the other, on the same shared provider: the fields of the shared
provider afterwards. -/
def providerAfter (tfProvider : Provider) : List (Env × Managed) → Provider
  | [] => tfProvider
  | (env, mg) :: rest => providerAfter (TerraformSetupBuilder env tfProvider mg).tfProvider rest

/-- A JSON value that is a boolean, a number, an array or an object. -/
def JSON.isNonString : JSON → Bool
  | JSON.bool _ => true
  | JSON.number _ => true
  | JSON.arr _ => true
  | JSON.obj _ => true
  | JSON.null => false
  | JSON.str _ => false

/-- The payload is a JSON object. -/
def Payload.isObject : Payload → Bool
  | Payload.parsed (JSON.obj _) => true
  | _ => false

/-- The payload is the JSON literal `null`. -/
def Payload.isNull : Payload → Bool
  | Payload.parsed JSON.null => true
  | _ => false

/-- The payload is a JSON object one of whose members has a boolean, number,
array or object value. -/
def Payload.hasNonStringMember : Payload → Bool
  | Payload.parsed (JSON.obj members) => members.any (fun e => e.2.isNonString)
  | _ => false

/-! ## `config/provider.go` -/

/-- A `tfjson.Schema`, kept as uninterpreted data. -/
structure SchemaDocument where
  text : String
  deriving DecidableEq, Repr

/-- A `schema.Resource` of the plugin SDK, kept as uninterpreted data. -/
structure Resource where
  text : String
  deriving DecidableEq, Repr

/-- The type `tfjson.ProviderSchema`, reduced to `ResourceSchemas`
(`map[string]*Schema`; a `nil` pointer is `none`, the `nil` map is the empty
list). -/
structure ProviderSchema where
  ResourceSchemas : GoMap (Option SchemaDocument)
  deriving DecidableEq, Repr

/-- The type `tfjson.ProviderSchemas`.  `Schemas` is a
`map[string]*ProviderSchema`: an entry may hold the `nil` pointer (`none`). -/
structure ProviderSchemas where
  FormatVersion : String
  Schemas : GoMap (Option ProviderSchema)
  deriving DecidableEq, Repr

/-- The value `&tfschema.Provider{ResourcesMap: ...}`: a provider all of whose
other fields are zero. -/
structure SchemaProvider where
  ResourcesMap : GoMap Resource
  deriving DecidableEq, Repr

/-- Why a call panicked: `panic(err)` with an error value, or the runtime
panic of a `nil` pointer dereference. -/
inductive Panic where
  | value (err : GoError)
  | nilPointerDereference
  deriving DecidableEq, Repr

/-- How a call of a Go function ends: it returns its results or it panics. -/
inductive Exec (α : Type) where
  | returns (v : α)
  | panics (p : Panic)
  deriving DecidableEq, Repr

/-- The composite literal `&tfschema.Provider{ResourcesMap: f(rs)}` with its
`error` companion `nil`: the call `f(rs)` is evaluated first, and a panic of
the call is a panic of the whole expression. -/
def providerOf (converted : Exec (GoMap Resource)) :
    Exec (Option SchemaProvider × Option GoError) :=
  match converted with
  | Exec.returns resources => Exec.returns (some { ResourcesMap := resources }, none)
  | Exec.panics p => Exec.panics p

/-- Embedding of `getProviderSchema(s)`.  `UnmarshalJSON` is the method
`(*tfjson.ProviderSchemas).UnmarshalJSON` applied to the zero value (the error,
or the populated value) and `GetV2ResourceMap` the upjet conversion of that
name, which returns the converted map or panics (it dereferences every
`*tfjson.Schema` it is given and panics on schema content it does not
handle).  The returned pair is (`*tfschema.Provider`, `error`).  The `range`
loop with its `break` reads the first entry the iteration yields; for a map
with one entry that is its only entry, and over an empty map the body does not
run and `rs` stays `nil`.  Reading `v.ResourceSchemas` through a `nil` entry is
a runtime panic. -/
def getProviderSchema (UnmarshalJSON : String → Except GoError ProviderSchemas)
    (GetV2ResourceMap : GoMap (Option SchemaDocument) → Exec (GoMap Resource)) (s : String) :
    Exec (Option SchemaProvider × Option GoError) :=
  match UnmarshalJSON s with
  | Except.error err => Exec.panics (Panic.value err)
  | Except.ok ps =>
    if GoMap.len ps.Schemas ≠ 1 then
      Exec.returns (none, errors.Errorf
        ("there should exactly be 1 provider schema but there are " ++
          toString (GoMap.len ps.Schemas)))
    else
      match ps.Schemas with
      | [] => providerOf (GetV2ResourceMap [])
      | (_, none) :: _ => Exec.panics Panic.nilPointerDereference
      | (_, some v) :: _ => providerOf (GetV2ResourceMap v.ResourceSchemas)

/-! ## Concrete inputs -/

/-- A provider that has not been configured. -/
def freshProvider : Provider :=
  { meta := none, configured := false, TerraformVersion := "" }

/-- A managed resource without a provider config reference. -/
def mgWithoutRef : Managed :=
  { Name := "machine-a", ProviderConfigReference := none }

/-- A managed resource that refers to the provider config `default`. -/
def mgWithRef : Managed :=
  { Name := "machine-a", ProviderConfigReference := some { Name := "default" } }

/-- A provider config that reads its credentials from a secret. -/
def secretConfig : ProviderConfig :=
  { Credentials :=
      { Source := "Secret",
        CommonCredentialSelectors :=
          { Fs := none, Env := none,
            SecretRef := some { Namespace := "crossplane-system", Name := "vra-creds",
                                Key := "credentials" } } } }

/-- A `Configure` that succeeds without diagnostics and stores a client named
after the `url` it was given. -/
def configureOk (p : Provider) (config : Option (GoMap String)) : Diagnostics × Provider :=
  (none, { p with
    meta := some ("client:" ++ ((GoMap.lookup (config.getD []) keyURL).getD "")),
    configured := true })

/-- A `Configure` that reports an error diagnostic and stores nothing. -/
def configureFails (p : Provider) (_config : Option (GoMap String)) : Diagnostics × Provider :=
  (some [{ Severity := Severity.Error, Summary := "invalid refresh token", Detail := "" }], p)

/-- A `Configure` that succeeds with a warning. -/
def configureWarns (p : Provider) (_config : Option (GoMap String)) : Diagnostics × Provider :=
  (some [{ Severity := Severity.Warning, Summary := "deprecated", Detail := "" }],
   { p with meta := some "client", configured := true })

/-- A rendering of diagnostics: the summaries, separated by semicolons. -/
def summaries : Diagnostics → String
  | none => ""
  | some ds => String.intercalate "; " (ds.map (fun d => d.Summary))

/-- A cluster in which every library call succeeds and the secret holds
`data`. -/
def envWith (data : Payload) : Env :=
  { Get := fun _ => Except.ok secretConfig,
    Track := fun _ => none,
    CommonCredentialExtractor := fun _ _ => Except.ok data,
    Configure := configureOk,
    formatDiagnostics := summaries }

/-- A cluster in which the provider config cannot be fetched. -/
def envGetFails : Env :=
  { envWith (Payload.parsed JSON.null) with
    Get := fun name => Except.error (GoError.new ("ProviderConfig " ++ name ++ " not found")) }

/-- A cluster in which tracking the usage fails. -/
def envTrackFails : Env :=
  { envWith (Payload.parsed JSON.null) with
    Track := fun _ => some (GoError.new "cannot apply ProviderConfigUsage") }

/-- A cluster in which the credentials cannot be extracted. -/
def envExtractFails : Env :=
  { envWith (Payload.parsed JSON.null) with
    CommonCredentialExtractor := fun _ _ =>
      Except.error (GoError.new "cannot get credentials secret") }

/-- Credentials with two recognised keys and one other key. -/
def sampleCredentials : Payload :=
  Payload.parsed (JSON.obj
    [("url", JSON.str "https://vra.example"), ("refresh_token", JSON.str "r1"),
     ("tenant", JSON.str "t")])

/-- The credentials object with members `url` (a string) and `insecure` (the
boolean true). -/
def credentialsWithBool : Payload :=
  Payload.parsed (JSON.obj [("url", JSON.str "u"), ("insecure", JSON.bool true)])

/-- A cluster in which everything succeeds up to `Configure`, which reports an
error. -/
def envConfigureFails : Env :=
  { envWith sampleCredentials with Configure := configureFails }

/-- A provider-schemas document whose only provider schema is JSON null. -/
def nullSchemaText : String :=
  "\x7b\"format_version\":\"1.0\",\"provider_schemas\":\x7b\"registry.terraform.io/vmware/vra\":null\x7d\x7d"

/-- A provider-schemas document with one provider schema that has one
resource. -/
def oneSchemaText : String :=
  "\x7b\"format_version\":\"1.0\",\"provider_schemas\":\x7b\"registry.terraform.io/vmware/vra\":\x7b\"resource_schemas\":\x7b\"vra_project\":\x7b\"version\":0\x7d\x7d\x7d\x7d\x7d"

/-- A provider-schemas document with one provider schema whose only resource
schema is JSON null. -/
def nullResourceText : String :=
  "\x7b\"format_version\":\"1.0\",\"provider_schemas\":\x7b\"registry.terraform.io/vmware/vra\":\x7b\"resource_schemas\":\x7b\"vra_project\":null\x7d\x7d\x7d\x7d"

/-- A provider-schemas document without provider schemas. -/
def noSchemaText : String :=
  "\x7b\"format_version\":\"1.0\"\x7d"

/-- What `UnmarshalJSON` makes of the four documents above; every other text
is rejected. -/
def sampleUnmarshalJSON (s : String) : Except GoError ProviderSchemas :=
  if s = nullSchemaText then
    Except.ok { FormatVersion := "1.0",
                Schemas := [("registry.terraform.io/vmware/vra", none)] }
  else if s = oneSchemaText then
    Except.ok { FormatVersion := "1.0",
                Schemas := [("registry.terraform.io/vmware/vra",
                  some { ResourceSchemas := [("vra_project", some { text := "version 0" })] })] }
  else if s = nullResourceText then
    Except.ok { FormatVersion := "1.0",
                Schemas := [("registry.terraform.io/vmware/vra",
                  some { ResourceSchemas := [("vra_project", none)] })] }
  else if s = noSchemaText then
    Except.ok { FormatVersion := "1.0", Schemas := [] }
  else
    Except.error (GoError.new "unexpected end of JSON input")

/-- A conversion that keeps the text of every schema and panics when an entry
is the `nil` pointer. -/
def sampleGetV2ResourceMap (rs : GoMap (Option SchemaDocument)) : Exec (GoMap Resource) :=
  if rs.any (fun e => e.2.isNone) then
    Exec.panics Panic.nilPointerDereference
  else
    Exec.returns (rs.filterMap (fun e => e.2.map (fun d => (e.1, { text := d.text }))))

/-! ## Lemmas on maps -/

theorem GoMap.lookup_set {V : Type} (m : GoMap V) (k k2 : String) (v : V) :
    GoMap.lookup (GoMap.set m k v) k2 = if k2 = k then some v else GoMap.lookup m k2 := by
  unfold GoMap.lookup GoMap.set
  by_cases h : k2 = k
  · subst h
    simp [List.lookup]
  · have hb : (k2 == k) = false := by simpa using h
    simp only [List.lookup, hb, if_neg h]
    induction m with
    | nil => simp
    | cons e rest ih =>
      obtain ⟨a, b⟩ := e
      by_cases ha : a = k
      · subst ha
        have hb2 : (k2 == a) = false := by simpa using h
        simp [List.filter, List.lookup, hb2, ih]
      · have hne : (a != k) = true := by simpa using ha
        simp only [List.filter, hne, List.lookup]
        cases hk : (k2 == a) with
        | true => rfl
        | false => simpa using ih

theorem GoMap.lookup_isSome_iff_mem_keys {V : Type} (m : GoMap V) (k : String) :
    (GoMap.lookup m k).isSome = true ↔ k ∈ GoMap.keys m := by
  unfold GoMap.lookup GoMap.keys
  induction m with
  | nil => simp [List.lookup]
  | cons e rest ih =>
    obtain ⟨a, b⟩ := e
    by_cases h : k = a
    · subst h
      simp [List.lookup]
    · have hb : (k == a) = false := by simpa using h
      simp [List.lookup, hb, h, ih]

theorem lookup_copyKey (vraCreds : GoMap String) (key : String) (configuration : GoMap String)
    (k : String) :
    GoMap.lookup (copyKey vraCreds key configuration) k =
      if k = key ∧ (GoMap.lookup vraCreds key).isSome = true then GoMap.lookup vraCreds key
      else GoMap.lookup configuration k := by
  unfold copyKey
  cases h : GoMap.lookup vraCreds key with
  | none => simp
  | some v =>
    simp only [GoMap.lookup_set, Option.isSome_some, and_true]

theorem lookup_buildConfiguration (vraCreds : GoMap String) (k : String) :
    GoMap.lookup (buildConfiguration vraCreds) k =
      if k ∈ recognizedKeys then GoMap.lookup vraCreds k else none := by
  unfold buildConfiguration
  simp only [lookup_copyKey, recognizedKeys, List.mem_cons, List.mem_singleton,
    List.mem_nil_iff, or_false]
  have hnil : GoMap.lookup ([] : GoMap String) k = none := rfl
  have d : keyURL ≠ keyAccessToken ∧ keyURL ≠ keyRefreshToken ∧ keyURL ≠ keyInsecure ∧
      keyURL ≠ keyReauthorizeTimeout ∧ keyURL ≠ keyApiTimeout ∧
      keyAccessToken ≠ keyRefreshToken ∧ keyAccessToken ≠ keyInsecure ∧
      keyAccessToken ≠ keyReauthorizeTimeout ∧ keyAccessToken ≠ keyApiTimeout ∧
      keyRefreshToken ≠ keyInsecure ∧ keyRefreshToken ≠ keyReauthorizeTimeout ∧
      keyRefreshToken ≠ keyApiTimeout ∧ keyInsecure ≠ keyReauthorizeTimeout ∧
      keyInsecure ≠ keyApiTimeout ∧ keyReauthorizeTimeout ≠ keyApiTimeout := by decide
  obtain ⟨d1, d2, d3, d4, d5, d6, d7, d8, d9, d10, d11, d12, d13, d14, d15⟩ := d
  by_cases h1 : k = keyApiTimeout
  · subst h1
    cases h : GoMap.lookup vraCreds keyApiTimeout <;>
      simp [h, hnil, Ne.symm d5, Ne.symm d9, Ne.symm d12, Ne.symm d14, Ne.symm d15]
  by_cases h2 : k = keyReauthorizeTimeout
  · subst h2
    cases h : GoMap.lookup vraCreds keyReauthorizeTimeout <;>
      simp [h, hnil, d15, Ne.symm d4, Ne.symm d8, Ne.symm d11, Ne.symm d13]
  by_cases h3 : k = keyInsecure
  · subst h3
    cases h : GoMap.lookup vraCreds keyInsecure <;>
      simp [h, hnil, d13, d14, Ne.symm d3, Ne.symm d7, Ne.symm d10]
  by_cases h4 : k = keyRefreshToken
  · subst h4
    cases h : GoMap.lookup vraCreds keyRefreshToken <;>
      simp [h, hnil, d10, d11, d12, Ne.symm d2, Ne.symm d6]
  by_cases h5 : k = keyAccessToken
  · subst h5
    cases h : GoMap.lookup vraCreds keyAccessToken <;>
      simp [h, hnil, d6, d7, d8, d9, Ne.symm d1]
  by_cases h6 : k = keyURL
  · subst h6
    cases h : GoMap.lookup vraCreds keyURL <;>
      simp [h, hnil, d1, d2, d3, d4, d5]
  simp [h1, h2, h3, h4, h5, h6, hnil]

theorem GoMap.nodup_keys_set {V : Type} (m : GoMap V) (k : String) (v : V)
    (h : (GoMap.keys m).Nodup) : (GoMap.keys (GoMap.set m k v)).Nodup := by
  unfold GoMap.keys GoMap.set at *
  rw [List.map_cons, List.nodup_cons]
  constructor
  · intro hmem
    rw [List.mem_map] at hmem
    obtain ⟨e, he, hk⟩ := hmem
    rw [List.mem_filter] at he
    have := he.2
    simp [hk] at this
  · exact (List.Nodup.sublist (List.Sublist.map Prod.fst (List.filter_sublist m)) h)

theorem nodup_keys_copyKey (vraCreds : GoMap String) (key : String)
    (configuration : GoMap String) (h : (GoMap.keys configuration).Nodup) :
    (GoMap.keys (copyKey vraCreds key configuration)).Nodup := by
  unfold copyKey
  cases GoMap.lookup vraCreds key with
  | none => exact h
  | some v => exact GoMap.nodup_keys_set configuration key v h

theorem nodup_keys_buildConfiguration (vraCreds : GoMap String) :
    (GoMap.keys (buildConfiguration vraCreds)).Nodup := by
  unfold buildConfiguration
  repeat apply nodup_keys_copyKey
  exact List.nodup_nil

/-! ## Lemmas on decoding -/

theorem decodeMembers_keeps_saved (members : List (String × JSON)) (m : GoMap String)
    (e : GoError) : (json.decodeMembers members m (some e)).2 = some e := by
  induction members generalizing m with
  | nil => rfl
  | cons member rest ih =>
    obtain ⟨k, v⟩ := member
    unfold json.decodeMembers
    cases json.decodeString v with
    | ok str => exact ih _
    | error e2 => exact ih _

theorem decodeMembers_error_of_nonString (members : List (String × JSON)) (m : GoMap String)
    (saved : Option GoError) (h : members.any (fun e => e.2.isNonString) = true) :
    ∃ e, (json.decodeMembers members m saved).2 = some e := by
  induction members generalizing m saved with
  | nil => simp at h
  | cons member rest ih =>
    obtain ⟨k, v⟩ := member
    rw [List.any_cons, Bool.or_eq_true] at h
    unfold json.decodeMembers
    cases v with
    | str x =>
      rcases h with h | h
      · exact absurd h (by simp [JSON.isNonString])
      · exact ih _ _ h
    | null =>
      rcases h with h | h
      · exact absurd h (by simp [JSON.isNonString])
      · exact ih _ _ h
    | bool b =>
      cases saved with
      | none => exact ⟨_, decodeMembers_keeps_saved rest _ _⟩
      | some first => exact ⟨_, decodeMembers_keeps_saved rest _ _⟩
    | number x =>
      cases saved with
      | none => exact ⟨_, decodeMembers_keeps_saved rest _ _⟩
      | some first => exact ⟨_, decodeMembers_keeps_saved rest _ _⟩
    | arr xs =>
      cases saved with
      | none => exact ⟨_, decodeMembers_keeps_saved rest _ _⟩
      | some first => exact ⟨_, decodeMembers_keeps_saved rest _ _⟩
    | obj xs =>
      cases saved with
      | none => exact ⟨_, decodeMembers_keeps_saved rest _ _⟩
      | some first => exact ⟨_, decodeMembers_keeps_saved rest _ _⟩

theorem unmarshal_rejects (data : Payload)
    (h : data.hasNonStringMember = true ∨ (data.isObject = false ∧ data.isNull = false)) :
    ∃ m e, json.Unmarshal data [] = (m, some e) := by
  cases data with
  | malformed err => exact ⟨_, _, rfl⟩
  | parsed v =>
    cases v with
    | null =>
      rcases h with h | ⟨_, h⟩
      · exact absurd h (by simp [Payload.hasNonStringMember])
      · exact absurd h (by simp [Payload.isNull])
    | bool b => exact ⟨_, _, rfl⟩
    | number x => exact ⟨_, _, rfl⟩
    | str x => exact ⟨_, _, rfl⟩
    | arr xs => exact ⟨_, _, rfl⟩
    | obj members =>
      rcases h with h | ⟨h, _⟩
      · obtain ⟨e, he⟩ := decodeMembers_error_of_nonString members [] none h
        refine ⟨(json.decodeMembers members [] none).1, e, ?_⟩
        show json.decodeMembers members [] none = _
        rw [← he]
      · exact absurd h (by simp [Payload.isObject])

/-! ## The paths through the setup function -/

theorem configureNoForkVaultClient_configuration (env : Env) (ps : Setup) (p : Provider) :
    (configureNoForkVaultClient env ps p).ps.Configuration = ps.Configuration := by
  unfold configureNoForkVaultClient
  simp only []
  split <;> rfl

theorem configureNoForkVaultClient_calls (env : Env) (ps : Setup) (p : Provider) :
    (configureNoForkVaultClient env ps p).calls = [Event.Configure p ps.Configuration] := by
  unfold configureNoForkVaultClient
  simp only []
  split <;> rfl

theorem setup_of_no_reference (env : Env) (tfProvider : Provider) (mg : Managed)
    (href : mg.GetProviderConfigReference = none) :
    TerraformSetupBuilder env tfProvider mg =
      { ps := {}, err := some (GoError.new errNoProviderConfig), calls := [],
        tfProvider := tfProvider } := by
  unfold TerraformSetupBuilder
  simp only [href, errors.New]

theorem setup_of_get_error (env : Env) (tfProvider : Provider) (mg : Managed)
    (configRef : Reference) (e : GoError)
    (href : mg.GetProviderConfigReference = some configRef)
    (hget : env.Get configRef.Name = Except.error e) :
    TerraformSetupBuilder env tfProvider mg =
      { ps := {}, err := some (GoError.wrap e errGetProviderConfig),
        calls := [Event.Get configRef.Name], tfProvider := tfProvider } := by
  unfold TerraformSetupBuilder
  simp only [href, hget, errors.Wrap]

theorem setup_of_track_error (env : Env) (tfProvider : Provider) (mg : Managed)
    (configRef : Reference) (pc : ProviderConfig) (e : GoError)
    (href : mg.GetProviderConfigReference = some configRef)
    (hget : env.Get configRef.Name = Except.ok pc)
    (htrack : env.Track mg = some e) :
    TerraformSetupBuilder env tfProvider mg =
      { ps := {}, err := some (GoError.wrap e errTrackUsage),
        calls := [Event.Get configRef.Name, Event.Track mg], tfProvider := tfProvider } := by
  unfold TerraformSetupBuilder
  simp only [href, hget, htrack, errors.Wrap, List.singleton_append]

theorem setup_of_extract_error (env : Env) (tfProvider : Provider) (mg : Managed)
    (configRef : Reference) (pc : ProviderConfig) (e : GoError)
    (href : mg.GetProviderConfigReference = some configRef)
    (hget : env.Get configRef.Name = Except.ok pc)
    (htrack : env.Track mg = none)
    (hextract : env.CommonCredentialExtractor pc.Credentials.Source
      pc.Credentials.CommonCredentialSelectors = Except.error e) :
    TerraformSetupBuilder env tfProvider mg =
      { ps := {}, err := some (GoError.wrap e errExtractCredentials),
        calls := [Event.Get configRef.Name, Event.Track mg,
          Event.CommonCredentialExtractor pc.Credentials.Source
            pc.Credentials.CommonCredentialSelectors],
        tfProvider := tfProvider } := by
  unfold TerraformSetupBuilder
  simp only [href, hget, htrack, hextract, errors.Wrap, List.singleton_append, List.cons_append,
    List.nil_append]

theorem setup_of_unmarshal_error (env : Env) (tfProvider : Provider) (mg : Managed)
    (configRef : Reference) (pc : ProviderConfig) (data : Payload) (m : GoMap String)
    (e : GoError)
    (href : mg.GetProviderConfigReference = some configRef)
    (hget : env.Get configRef.Name = Except.ok pc)
    (htrack : env.Track mg = none)
    (hextract : env.CommonCredentialExtractor pc.Credentials.Source
      pc.Credentials.CommonCredentialSelectors = Except.ok data)
    (hjson : json.Unmarshal data [] = (m, some e)) :
    TerraformSetupBuilder env tfProvider mg =
      { ps := {}, err := some (GoError.wrap e errUnmarshalCredentials),
        calls := [Event.Get configRef.Name, Event.Track mg,
          Event.CommonCredentialExtractor pc.Credentials.Source
            pc.Credentials.CommonCredentialSelectors],
        tfProvider := tfProvider } := by
  unfold TerraformSetupBuilder
  simp only [href, hget, htrack, hextract, hjson, errors.Wrap, List.singleton_append,
    List.cons_append, List.nil_append]

theorem setup_of_unmarshal_ok (env : Env) (tfProvider : Provider) (mg : Managed)
    (configRef : Reference) (pc : ProviderConfig) (data : Payload) (m : GoMap String)
    (href : mg.GetProviderConfigReference = some configRef)
    (hget : env.Get configRef.Name = Except.ok pc)
    (htrack : env.Track mg = none)
    (hextract : env.CommonCredentialExtractor pc.Credentials.Source
      pc.Credentials.CommonCredentialSelectors = Except.ok data)
    (hjson : json.Unmarshal data [] = (m, none)) :
    TerraformSetupBuilder env tfProvider mg =
      { ps := (configureNoForkVaultClient env
          { Configuration := some (buildConfiguration m) } tfProvider).ps,
        err := errors.Wrap (configureNoForkVaultClient env
          { Configuration := some (buildConfiguration m) } tfProvider).err
          "failed to configure the no-fork GCP client",
        calls := [Event.Get configRef.Name, Event.Track mg,
          Event.CommonCredentialExtractor pc.Credentials.Source
            pc.Credentials.CommonCredentialSelectors,
          Event.Configure tfProvider (some (buildConfiguration m))],
        tfProvider := tfProvider } := by
  unfold TerraformSetupBuilder
  simp only [href, hget, htrack, hextract, hjson, configureNoForkVaultClient_calls,
    List.singleton_append, List.cons_append, List.nil_append]

theorem configureNoForkVaultClient_of_error (env : Env) (ps : Setup) (p : Provider)
    (hdiag : (env.Configure p ps.Configuration).1 ≠ none)
    (herr : Diagnostics.HasError (env.Configure p ps.Configuration).1 = true) :
    (configureNoForkVaultClient env ps p).err =
        some (GoError.new ("failed to configure the provider: " ++
          env.formatDiagnostics (env.Configure p ps.Configuration).1)) ∧
      (configureNoForkVaultClient env ps p).ps = ps := by
  unfold configureNoForkVaultClient
  have hsome : (env.Configure p ps.Configuration).1.isSome = true := by
    cases h : (env.Configure p ps.Configuration).1 with
    | none => exact absurd h hdiag
    | some ds => rfl
  simp only [hsome, herr, Bool.and_self, if_true, errors.Errorf, and_self]

theorem configureNoForkVaultClient_of_no_error (env : Env) (ps : Setup) (p : Provider)
    (h : (env.Configure p ps.Configuration).1 = none ∨
      Diagnostics.HasError (env.Configure p ps.Configuration).1 = false) :
    (configureNoForkVaultClient env ps p).err = none ∧
      (configureNoForkVaultClient env ps p).ps =
        { ps with Meta := (env.Configure p ps.Configuration).2.Meta } := by
  unfold configureNoForkVaultClient
  have hcond : ((env.Configure p ps.Configuration).1.isSome &&
      Diagnostics.HasError (env.Configure p ps.Configuration).1) = false := by
    rcases h with h | h
    · rw [h]; rfl
    · rw [h]; simp
  simp only [hcond, Bool.false_eq_true, if_false, and_self]

/-- Every execution of the setup function takes one of six paths. -/
theorem setup_paths (env : Env) (mg : Managed) :
    mg.GetProviderConfigReference = none ∨
    (∃ configRef e, mg.GetProviderConfigReference = some configRef ∧
      env.Get configRef.Name = Except.error e) ∨
    (∃ configRef pc e, mg.GetProviderConfigReference = some configRef ∧
      env.Get configRef.Name = Except.ok pc ∧ env.Track mg = some e) ∨
    (∃ configRef pc e, mg.GetProviderConfigReference = some configRef ∧
      env.Get configRef.Name = Except.ok pc ∧ env.Track mg = none ∧
      env.CommonCredentialExtractor pc.Credentials.Source
        pc.Credentials.CommonCredentialSelectors = Except.error e) ∨
    (∃ configRef pc data m e, mg.GetProviderConfigReference = some configRef ∧
      env.Get configRef.Name = Except.ok pc ∧ env.Track mg = none ∧
      env.CommonCredentialExtractor pc.Credentials.Source
        pc.Credentials.CommonCredentialSelectors = Except.ok data ∧
      json.Unmarshal data [] = (m, some e)) ∨
    (∃ configRef pc data m, mg.GetProviderConfigReference = some configRef ∧
      env.Get configRef.Name = Except.ok pc ∧ env.Track mg = none ∧
      env.CommonCredentialExtractor pc.Credentials.Source
        pc.Credentials.CommonCredentialSelectors = Except.ok data ∧
      json.Unmarshal data [] = (m, none)) := by
  cases href : mg.GetProviderConfigReference with
  | none => exact Or.inl rfl
  | some configRef =>
    right
    cases hget : env.Get configRef.Name with
    | error e => exact Or.inl ⟨configRef, e, rfl, hget⟩
    | ok pc =>
      right
      cases htrack : env.Track mg with
      | some e => exact Or.inl ⟨configRef, pc, e, rfl, hget, rfl⟩
      | none =>
        right
        cases hextract : env.CommonCredentialExtractor pc.Credentials.Source
            pc.Credentials.CommonCredentialSelectors with
        | error e => exact Or.inl ⟨configRef, pc, e, rfl, hget, rfl, hextract⟩
        | ok data =>
          right
          cases hjson : json.Unmarshal data [] with
          | mk m err =>
            cases err with
            | some e => exact Or.inl ⟨configRef, pc, data, m, e, rfl, hget, rfl, hextract, hjson⟩
            | none => exact Or.inr ⟨configRef, pc, data, m, rfl, hget, rfl, hextract, hjson⟩

theorem setup_of_configure_error (env : Env) (tfProvider : Provider) (mg : Managed)
    (configRef : Reference) (pc : ProviderConfig) (data : Payload) (m : GoMap String)
    (href : mg.GetProviderConfigReference = some configRef)
    (hget : env.Get configRef.Name = Except.ok pc)
    (htrack : env.Track mg = none)
    (hextract : env.CommonCredentialExtractor pc.Credentials.Source
      pc.Credentials.CommonCredentialSelectors = Except.ok data)
    (hjson : json.Unmarshal data [] = (m, none))
    (hdiag : (env.Configure tfProvider (some (buildConfiguration m))).1 ≠ none)
    (herr : Diagnostics.HasError
      (env.Configure tfProvider (some (buildConfiguration m))).1 = true) :
    TerraformSetupBuilder env tfProvider mg =
      { ps := { Configuration := some (buildConfiguration m), Meta := none },
        err := some (GoError.wrap
          (GoError.new ("failed to configure the provider: " ++
            env.formatDiagnostics (env.Configure tfProvider (some (buildConfiguration m))).1))
          "failed to configure the no-fork GCP client"),
        calls := [Event.Get configRef.Name, Event.Track mg,
          Event.CommonCredentialExtractor pc.Credentials.Source
            pc.Credentials.CommonCredentialSelectors,
          Event.Configure tfProvider (some (buildConfiguration m))],
        tfProvider := tfProvider } := by
  rw [setup_of_unmarshal_ok env tfProvider mg configRef pc data m href hget htrack hextract
    hjson]
  obtain ⟨h1, h2⟩ := configureNoForkVaultClient_of_error env
    { Configuration := some (buildConfiguration m) } tfProvider hdiag herr
  rw [h1, h2]
  rfl

theorem setup_of_configure_ok (env : Env) (tfProvider : Provider) (mg : Managed)
    (configRef : Reference) (pc : ProviderConfig) (data : Payload) (m : GoMap String)
    (href : mg.GetProviderConfigReference = some configRef)
    (hget : env.Get configRef.Name = Except.ok pc)
    (htrack : env.Track mg = none)
    (hextract : env.CommonCredentialExtractor pc.Credentials.Source
      pc.Credentials.CommonCredentialSelectors = Except.ok data)
    (hjson : json.Unmarshal data [] = (m, none))
    (hdiag : (env.Configure tfProvider (some (buildConfiguration m))).1 = none ∨
      Diagnostics.HasError (env.Configure tfProvider (some (buildConfiguration m))).1 = false) :
    TerraformSetupBuilder env tfProvider mg =
      { ps := { Configuration := some (buildConfiguration m),
                Meta := (env.Configure tfProvider (some (buildConfiguration m))).2.Meta },
        err := none,
        calls := [Event.Get configRef.Name, Event.Track mg,
          Event.CommonCredentialExtractor pc.Credentials.Source
            pc.Credentials.CommonCredentialSelectors,
          Event.Configure tfProvider (some (buildConfiguration m))],
        tfProvider := tfProvider } := by
  rw [setup_of_unmarshal_ok env tfProvider mg configRef pc data m href hget htrack hextract
    hjson]
  obtain ⟨h1, h2⟩ := configureNoForkVaultClient_of_no_error env
    { Configuration := some (buildConfiguration m) } tfProvider hdiag
  rw [h1, h2]
  rfl

/-- The diagnostics of a `Configure` call either report an error or they do
not. -/
theorem diagnostics_cases (diag : Diagnostics) :
    (diag ≠ none ∧ Diagnostics.HasError diag = true) ∨
      (diag = none ∨ Diagnostics.HasError diag = false) := by
  cases h : Diagnostics.HasError diag with
  | false => exact Or.inr (Or.inr rfl)
  | true =>
    left
    refine ⟨?_, rfl⟩
    intro hn
    rw [hn] at h
    exact Bool.noConfusion h

theorem setup_tfProvider (env : Env) (tfProvider : Provider) (mg : Managed) :
    (TerraformSetupBuilder env tfProvider mg).tfProvider = tfProvider := by
  rcases setup_paths env mg with h | ⟨r, e, h1, h2⟩ | ⟨r, pc, e, h1, h2, h3⟩ |
    ⟨r, pc, e, h1, h2, h3, h4⟩ | ⟨r, pc, data, m, e, h1, h2, h3, h4, h5⟩ |
    ⟨r, pc, data, m, h1, h2, h3, h4, h5⟩
  · rw [setup_of_no_reference env tfProvider mg h]
  · rw [setup_of_get_error env tfProvider mg r e h1 h2]
  · rw [setup_of_track_error env tfProvider mg r pc e h1 h2 h3]
  · rw [setup_of_extract_error env tfProvider mg r pc e h1 h2 h3 h4]
  · rw [setup_of_unmarshal_error env tfProvider mg r pc data m e h1 h2 h3 h4 h5]
  · rw [setup_of_unmarshal_ok env tfProvider mg r pc data m h1 h2 h3 h4 h5]

theorem providerAfter_eq (tfProvider : Provider) (earlier : List (Env × Managed)) :
    providerAfter tfProvider earlier = tfProvider := by
  induction earlier with
  | nil => rfl
  | cons c rest ih =>
    obtain ⟨env, mg⟩ := c
    simp only [providerAfter, setup_tfProvider, ih]

/-! ## The setup function: failures before the provider is configured -/

/-- C1: for every managed resource whose `GetProviderConfigReference()` is nil
the setup function fails with a leaf error whose message is exactly
"no providerConfigRef provided", and it makes no library call at all: no
`client.Get`, no usage tracking, no credential extraction, no `Configure`. -/
theorem missing_reference_fails (env : Env) (tfProvider : Provider) (mg : Managed)
    (href : mg.GetProviderConfigReference = none) :
    (TerraformSetupBuilder env tfProvider mg).err =
        some (GoError.new "no providerConfigRef provided") ∧
      (TerraformSetupBuilder env tfProvider mg).err.map GoError.Error =
        some "no providerConfigRef provided" ∧
      (TerraformSetupBuilder env tfProvider mg).calls = [] := by
  rw [setup_of_no_reference env tfProvider mg href]
  exact ⟨rfl, rfl, rfl⟩

/-- C1 at a managed resource without a reference, in a cluster where every
library call would succeed. -/
theorem missing_reference_fails_witness :
    mgWithoutRef.GetProviderConfigReference = none ∧
      ((TerraformSetupBuilder (envWith sampleCredentials) freshProvider mgWithoutRef).err =
          some (GoError.new "no providerConfigRef provided") ∧
        (TerraformSetupBuilder (envWith sampleCredentials) freshProvider mgWithoutRef).err.map
          GoError.Error = some "no providerConfigRef provided" ∧
        (TerraformSetupBuilder (envWith sampleCredentials) freshProvider mgWithoutRef).calls = []) :=
  ⟨rfl, missing_reference_fails (envWith sampleCredentials) freshProvider mgWithoutRef rfl⟩

/-- C2: for a managed resource with a provider config reference, if `client.Get`
of the referenced ProviderConfig returns the error `e`, the setup function
fails with `e` wrapped under "cannot get referenced ProviderConfig": the
message is that text, a colon and a blank, and the message of `e`; the cause is
`e`.  The only library call made is that `client.Get`: no usage tracking, no
credential extraction, no `Configure`. -/
theorem get_failure_is_wrapped (env : Env) (tfProvider : Provider) (mg : Managed)
    (configRef : Reference) (e : GoError)
    (href : mg.GetProviderConfigReference = some configRef)
    (hget : env.Get configRef.Name = Except.error e) :
    (TerraformSetupBuilder env tfProvider mg).err =
        some (GoError.wrap e "cannot get referenced ProviderConfig") ∧
      (TerraformSetupBuilder env tfProvider mg).err.map GoError.Error =
        some ("cannot get referenced ProviderConfig: " ++ e.Error) ∧
      (TerraformSetupBuilder env tfProvider mg).err.bind GoError.Unwrap = some e ∧
      (TerraformSetupBuilder env tfProvider mg).calls = [Event.Get configRef.Name] := by
  rw [setup_of_get_error env tfProvider mg configRef e href hget]
  refine ⟨rfl, ?_, rfl, rfl⟩
  simp only [Option.map_some', GoError.Error, errGetProviderConfig, Option.some.injEq]
  rw [String.append_assoc]
  rfl

/-- C2 at a cluster in which the provider config `default` cannot be found. -/
theorem get_failure_is_wrapped_witness :
    mgWithRef.GetProviderConfigReference = some { Name := "default" } ∧
      envGetFails.Get "default" =
        Except.error (GoError.new "ProviderConfig default not found") ∧
      (TerraformSetupBuilder envGetFails freshProvider mgWithRef).err.map GoError.Error =
        some ("cannot get referenced ProviderConfig: " ++
          (GoError.new "ProviderConfig default not found").Error) ∧
      (TerraformSetupBuilder envGetFails freshProvider mgWithRef).calls =
        [Event.Get "default"] :=
  ⟨rfl, rfl,
    (get_failure_is_wrapped envGetFails freshProvider mgWithRef { Name := "default" }
      (GoError.new "ProviderConfig default not found") rfl rfl).2.1,
    (get_failure_is_wrapped envGetFails freshProvider mgWithRef { Name := "default" }
      (GoError.new "ProviderConfig default not found") rfl rfl).2.2.2⟩

/-! ## The configuration mapping -/

/-- C3: when the reference is present and `client.Get`, usage tracking and
credential extraction succeed, and the credentials unmarshal to the map `m`,
the returned `Setup` has a non-nil `Configuration` whose keys are exactly the
keys of `m` among url, access_token, refresh_token, insecure,
reauthorize_timeout and api_timeout, each once, and whose value at each of its
keys is the value of `m` at that key.  A key of `m` outside the six never
appears, nor does one of the six that `m` lacks. -/
theorem configuration_is_recognized_part (env : Env) (tfProvider : Provider) (mg : Managed)
    (configRef : Reference) (pc : ProviderConfig) (data : Payload) (m : GoMap String)
    (href : mg.GetProviderConfigReference = some configRef)
    (hget : env.Get configRef.Name = Except.ok pc)
    (htrack : env.Track mg = none)
    (hextract : env.CommonCredentialExtractor pc.Credentials.Source
      pc.Credentials.CommonCredentialSelectors = Except.ok data)
    (hjson : json.Unmarshal data [] = (m, none)) :
    ∃ configuration,
      (TerraformSetupBuilder env tfProvider mg).ps.Configuration = some configuration ∧
      (∀ k, k ∈ GoMap.keys configuration ↔
        k ∈ GoMap.keys m ∧
          k ∈ ["url", "access_token", "refresh_token", "insecure", "reauthorize_timeout",
            "api_timeout"]) ∧
      (∀ k, k ∈ GoMap.keys configuration →
        GoMap.lookup configuration k = GoMap.lookup m k) ∧
      (∀ k, k ∉ GoMap.keys configuration → GoMap.lookup configuration k = none) ∧
      (GoMap.keys configuration).Nodup := by
  refine ⟨buildConfiguration m, ?_, ?_, ?_, ?_, nodup_keys_buildConfiguration m⟩
  · rw [setup_of_unmarshal_ok env tfProvider mg configRef pc data m href hget htrack hextract
      hjson]
    exact configureNoForkVaultClient_configuration env _ tfProvider
  · intro k
    rw [← GoMap.lookup_isSome_iff_mem_keys, ← GoMap.lookup_isSome_iff_mem_keys,
      lookup_buildConfiguration]
    have hkeys : recognizedKeys = ["url", "access_token", "refresh_token", "insecure",
      "reauthorize_timeout", "api_timeout"] := rfl
    rw [← hkeys]
    by_cases hk : k ∈ recognizedKeys
    · simp [hk]
    · simp [hk]
  · intro k hk
    rw [← GoMap.lookup_isSome_iff_mem_keys, lookup_buildConfiguration] at hk
    rw [lookup_buildConfiguration]
    by_cases hrec : k ∈ recognizedKeys
    · simp [hrec]
    · simp [hrec] at hk
  · intro k hk
    rw [← GoMap.lookup_isSome_iff_mem_keys] at hk
    cases hl : GoMap.lookup (buildConfiguration m) k with
    | none => rfl
    | some v => simp [hl] at hk

/-- C3 at credentials with the members url, refresh_token and tenant. -/
theorem configuration_is_recognized_part_witness :
    mgWithRef.GetProviderConfigReference = some { Name := "default" } ∧
      (envWith sampleCredentials).Get "default" = Except.ok secretConfig ∧
      (envWith sampleCredentials).Track mgWithRef = none ∧
      (envWith sampleCredentials).CommonCredentialExtractor secretConfig.Credentials.Source
        secretConfig.Credentials.CommonCredentialSelectors = Except.ok sampleCredentials ∧
      json.Unmarshal sampleCredentials [] =
        ([("tenant", "t"), ("refresh_token", "r1"), ("url", "https://vra.example")], none) ∧
      ∃ configuration,
        (TerraformSetupBuilder (envWith sampleCredentials) freshProvider mgWithRef).ps.Configuration
          = some configuration ∧
        (∀ k, k ∈ GoMap.keys configuration ↔
          k ∈ GoMap.keys
              [("tenant", "t"), ("refresh_token", "r1"), ("url", "https://vra.example")] ∧
            k ∈ ["url", "access_token", "refresh_token", "insecure", "reauthorize_timeout",
              "api_timeout"]) ∧
        (∀ k, k ∈ GoMap.keys configuration →
          GoMap.lookup configuration k = GoMap.lookup
            [("tenant", "t"), ("refresh_token", "r1"), ("url", "https://vra.example")] k) ∧
        (∀ k, k ∉ GoMap.keys configuration → GoMap.lookup configuration k = none) ∧
        (GoMap.keys configuration).Nodup :=
  ⟨rfl, rfl, rfl, rfl, by decide,
    configuration_is_recognized_part (envWith sampleCredentials) freshProvider mgWithRef
      { Name := "default" } secretConfig sampleCredentials
      [("tenant", "t"), ("refresh_token", "r1"), ("url", "https://vra.example")]
      rfl rfl rfl rfl (by decide)⟩

/-! ## Calls of the provider's `Configure` -/

/-- C4, as stated, fails: on a managed resource without a provider config
reference the setup function returns before the provider is configured, so
`Configure` is invoked zero times, not once. -/
theorem configure_skipped_without_reference :
    (configureCalls
        (TerraformSetupBuilder (envWith sampleCredentials) freshProvider mgWithoutRef).calls).length
        = 0 ∧
      ¬ (configureCalls
          (TerraformSetupBuilder (envWith sampleCredentials) freshProvider mgWithoutRef).calls =
        [(TerraformSetupBuilder (envWith sampleCredentials) freshProvider
          mgWithoutRef).ps.Configuration]) := by
  decide

/-- C4, amended: in every call in which the reference is present and
`client.Get`, usage tracking, credential extraction and unmarshalling succeed,
`Configure` is invoked exactly once, and the `ResourceConfig.Config` it receives
is the mapping built from the credentials, the same mapping that is returned in
`Setup.Configuration`. -/
theorem configure_once_with_configuration (env : Env) (tfProvider : Provider) (mg : Managed)
    (configRef : Reference) (pc : ProviderConfig) (data : Payload) (m : GoMap String)
    (href : mg.GetProviderConfigReference = some configRef)
    (hget : env.Get configRef.Name = Except.ok pc)
    (htrack : env.Track mg = none)
    (hextract : env.CommonCredentialExtractor pc.Credentials.Source
      pc.Credentials.CommonCredentialSelectors = Except.ok data)
    (hjson : json.Unmarshal data [] = (m, none)) :
    (configureCalls (TerraformSetupBuilder env tfProvider mg).calls).length = 1 ∧
      configureCalls (TerraformSetupBuilder env tfProvider mg).calls =
        [(TerraformSetupBuilder env tfProvider mg).ps.Configuration] ∧
      (TerraformSetupBuilder env tfProvider mg).ps.Configuration =
        some (buildConfiguration m) := by
  rw [setup_of_unmarshal_ok env tfProvider mg configRef pc data m href hget htrack hextract
    hjson]
  have hc := configureNoForkVaultClient_configuration env
    { Configuration := some (buildConfiguration m) } tfProvider
  refine ⟨rfl, ?_, hc⟩
  simp only [hc]
  rfl

/-- C4, amended, at credentials with the members url, refresh_token and
tenant: `Configure` receives the mapping with url and refresh_token. -/
theorem configure_once_with_configuration_witness :
    configureCalls (TerraformSetupBuilder (envWith sampleCredentials) freshProvider
        mgWithRef).calls =
      [some [("refresh_token", "r1"), ("url", "https://vra.example")]] ∧
    ((configureCalls (TerraformSetupBuilder (envWith sampleCredentials) freshProvider
        mgWithRef).calls).length = 1 ∧
      configureCalls (TerraformSetupBuilder (envWith sampleCredentials) freshProvider
          mgWithRef).calls =
        [(TerraformSetupBuilder (envWith sampleCredentials) freshProvider
          mgWithRef).ps.Configuration] ∧
      (TerraformSetupBuilder (envWith sampleCredentials) freshProvider
          mgWithRef).ps.Configuration =
        some (buildConfiguration
          [("tenant", "t"), ("refresh_token", "r1"), ("url", "https://vra.example")])) :=
  ⟨by decide,
    configure_once_with_configuration (envWith sampleCredentials) freshProvider mgWithRef
      { Name := "default" } secretConfig sampleCredentials
      [("tenant", "t"), ("refresh_token", "r1"), ("url", "https://vra.example")]
      rfl rfl rfl rfl (by decide)⟩

/-- C5: in every execution of the setup function `Configure` is invoked at
most once; it is invoked only if the reference was present and `client.Get`,
usage tracking, credential extraction and unmarshalling all succeeded; and if
one of those steps fails it is not invoked. -/
theorem configure_at_most_once (env : Env) (tfProvider : Provider) (mg : Managed) :
    (configureCalls (TerraformSetupBuilder env tfProvider mg).calls).length ≤ 1 ∧
      (configureCalls (TerraformSetupBuilder env tfProvider mg).calls ≠ [] →
        ∃ configRef pc data m, mg.GetProviderConfigReference = some configRef ∧
        env.Get configRef.Name = Except.ok pc ∧ env.Track mg = none ∧
        env.CommonCredentialExtractor pc.Credentials.Source
          pc.Credentials.CommonCredentialSelectors = Except.ok data ∧
        json.Unmarshal data [] = (m, none)) ∧
      ((¬ ∃ configRef pc data m, mg.GetProviderConfigReference = some configRef ∧
        env.Get configRef.Name = Except.ok pc ∧ env.Track mg = none ∧
        env.CommonCredentialExtractor pc.Credentials.Source
          pc.Credentials.CommonCredentialSelectors = Except.ok data ∧
        json.Unmarshal data [] = (m, none)) →
        configureCalls (TerraformSetupBuilder env tfProvider mg).calls = []) := by
  rcases setup_paths env mg with h | ⟨r, e, h1, h2⟩ | ⟨r, pc, e, h1, h2, h3⟩ |
    ⟨r, pc, e, h1, h2, h3, h4⟩ | ⟨r, pc, data, m, e, h1, h2, h3, h4, h5⟩ |
    ⟨r, pc, data, m, h1, h2, h3, h4, h5⟩
  · rw [setup_of_no_reference env tfProvider mg h]
    exact ⟨Nat.zero_le _, fun hne => absurd rfl hne, fun _ => rfl⟩
  · rw [setup_of_get_error env tfProvider mg r e h1 h2]
    exact ⟨Nat.zero_le _, fun hne => absurd rfl hne, fun _ => rfl⟩
  · rw [setup_of_track_error env tfProvider mg r pc e h1 h2 h3]
    exact ⟨Nat.zero_le _, fun hne => absurd rfl hne, fun _ => rfl⟩
  · rw [setup_of_extract_error env tfProvider mg r pc e h1 h2 h3 h4]
    exact ⟨Nat.zero_le _, fun hne => absurd rfl hne, fun _ => rfl⟩
  · rw [setup_of_unmarshal_error env tfProvider mg r pc data m e h1 h2 h3 h4 h5]
    exact ⟨Nat.zero_le _, fun hne => absurd rfl hne, fun _ => rfl⟩
  · rw [setup_of_unmarshal_ok env tfProvider mg r pc data m h1 h2 h3 h4 h5]
    exact ⟨Nat.le_refl 1, fun _ => ⟨r, pc, data, m, h1, h2, h3, h4, h5⟩,
      fun hno => absurd ⟨r, pc, data, m, h1, h2, h3, h4, h5⟩ hno⟩

/-- C5 at a cluster in which usage tracking fails: `Configure` is not
invoked. -/
theorem configure_at_most_once_witness :
    (¬ ∃ configRef pc data m,
        mgWithRef.GetProviderConfigReference = some configRef ∧
        envTrackFails.Get configRef.Name = Except.ok pc ∧ envTrackFails.Track mgWithRef = none ∧
        envTrackFails.CommonCredentialExtractor pc.Credentials.Source
          pc.Credentials.CommonCredentialSelectors = Except.ok data ∧
        json.Unmarshal data [] = (m, none)) ∧
      configureCalls (TerraformSetupBuilder envTrackFails freshProvider mgWithRef).calls = [] :=
  have hno : ¬ ∃ configRef pc data m,
      mgWithRef.GetProviderConfigReference = some configRef ∧
      envTrackFails.Get configRef.Name = Except.ok pc ∧ envTrackFails.Track mgWithRef = none ∧
      envTrackFails.CommonCredentialExtractor pc.Credentials.Source
        pc.Credentials.CommonCredentialSelectors = Except.ok data ∧
      json.Unmarshal data [] = (m, none) :=
    fun ⟨_, _, _, _, _, _, htrack, _⟩ => Option.noConfusion htrack
  ⟨hno, (configure_at_most_once envTrackFails freshProvider mgWithRef).2.2 hno⟩

/-! ## Error wrapping -/

/-- C6: the first failing step decides the result and no later step runs.  A
missing reference gives the error "no providerConfigRef provided" with no
library call made; a failure `e` of `client.Get`, of usage tracking, of
credential extraction or of unmarshalling gives `e` wrapped, as its cause,
under "cannot get referenced ProviderConfig", "cannot track ProviderConfig
usage", "cannot extract credentials" or "cannot unmarshal vRA credentials as
JSON", after exactly the calls up to the failing step; an error reported by
`Configure` gives the error built from the diagnostics, wrapped under a static
message.  Every error the setup function returns is of one of these forms. -/
theorem failures_are_wrapped (env : Env) (tfProvider : Provider) (mg : Managed) :
    (mg.GetProviderConfigReference = none →
      (TerraformSetupBuilder env tfProvider mg).err = some (GoError.new "no providerConfigRef provided") ∧ (TerraformSetupBuilder env tfProvider mg).calls = []) ∧
    (∀ configRef e,
      mg.GetProviderConfigReference = some configRef →
      env.Get configRef.Name = Except.error e →
      (TerraformSetupBuilder env tfProvider mg).err = some (GoError.wrap e "cannot get referenced ProviderConfig") ∧
        (TerraformSetupBuilder env tfProvider mg).calls = [Event.Get configRef.Name]) ∧
    (∀ configRef pc e,
      mg.GetProviderConfigReference = some configRef →
      env.Get configRef.Name = Except.ok pc →
      env.Track mg = some e →
      (TerraformSetupBuilder env tfProvider mg).err = some (GoError.wrap e "cannot track ProviderConfig usage") ∧
        (TerraformSetupBuilder env tfProvider mg).calls = [Event.Get configRef.Name, Event.Track mg]) ∧
    (∀ configRef pc e,
      mg.GetProviderConfigReference = some configRef →
      env.Get configRef.Name = Except.ok pc →
      env.Track mg = none →
      env.CommonCredentialExtractor pc.Credentials.Source
        pc.Credentials.CommonCredentialSelectors = Except.error e →
      (TerraformSetupBuilder env tfProvider mg).err = some (GoError.wrap e "cannot extract credentials") ∧
        (TerraformSetupBuilder env tfProvider mg).calls = [Event.Get configRef.Name, Event.Track mg,
          Event.CommonCredentialExtractor pc.Credentials.Source
            pc.Credentials.CommonCredentialSelectors]) ∧
    (∀ configRef pc data m e,
      mg.GetProviderConfigReference = some configRef →
      env.Get configRef.Name = Except.ok pc →
      env.Track mg = none →
      env.CommonCredentialExtractor pc.Credentials.Source
        pc.Credentials.CommonCredentialSelectors = Except.ok data →
      json.Unmarshal data [] = (m, some e) →
      (TerraformSetupBuilder env tfProvider mg).err = some (GoError.wrap e "cannot unmarshal vRA credentials as JSON") ∧
        (TerraformSetupBuilder env tfProvider mg).calls = [Event.Get configRef.Name, Event.Track mg,
          Event.CommonCredentialExtractor pc.Credentials.Source
            pc.Credentials.CommonCredentialSelectors]) ∧
    (∀ configRef pc data m,
      mg.GetProviderConfigReference = some configRef →
      env.Get configRef.Name = Except.ok pc →
      env.Track mg = none →
      env.CommonCredentialExtractor pc.Credentials.Source
        pc.Credentials.CommonCredentialSelectors = Except.ok data →
      json.Unmarshal data [] = (m, none) →
      (env.Configure tfProvider (some (buildConfiguration m))).1 ≠ none →
      Diagnostics.HasError (env.Configure tfProvider (some (buildConfiguration m))).1 = true →
      (TerraformSetupBuilder env tfProvider mg).err = some (GoError.wrap
          (GoError.new ("failed to configure the provider: " ++
            env.formatDiagnostics (env.Configure tfProvider (some (buildConfiguration m))).1))
          "failed to configure the no-fork GCP client")) ∧
    ((TerraformSetupBuilder env tfProvider mg).err = none ∨
      (TerraformSetupBuilder env tfProvider mg).err = some (GoError.new "no providerConfigRef provided") ∨
      ∃ cause msg,
        msg ∈ ["cannot get referenced ProviderConfig", "cannot track ProviderConfig usage",
          "cannot extract credentials", "cannot unmarshal vRA credentials as JSON",
          "failed to configure the no-fork GCP client"] ∧
        (TerraformSetupBuilder env tfProvider mg).err = some (GoError.wrap cause msg) ∧
        (TerraformSetupBuilder env tfProvider mg).err.bind GoError.Unwrap = some cause ∧
        (TerraformSetupBuilder env tfProvider mg).err.map GoError.Error = some (msg ++ ": " ++ cause.Error)) := by
  refine ⟨?_, ?_, ?_, ?_, ?_, ?_, ?_⟩
  · intro h
    rw [setup_of_no_reference env tfProvider mg h]
    exact ⟨rfl, rfl⟩
  · intro r e h1 h2
    rw [setup_of_get_error env tfProvider mg r e h1 h2]
    exact ⟨rfl, rfl⟩
  · intro r pc e h1 h2 h3
    rw [setup_of_track_error env tfProvider mg r pc e h1 h2 h3]
    exact ⟨rfl, rfl⟩
  · intro r pc e h1 h2 h3 h4
    rw [setup_of_extract_error env tfProvider mg r pc e h1 h2 h3 h4]
    exact ⟨rfl, rfl⟩
  · intro r pc data m e h1 h2 h3 h4 h5
    rw [setup_of_unmarshal_error env tfProvider mg r pc data m e h1 h2 h3 h4 h5]
    exact ⟨rfl, rfl⟩
  · intro r pc data m h1 h2 h3 h4 h5 h6 h7
    rw [setup_of_configure_error env tfProvider mg r pc data m h1 h2 h3 h4 h5 h6 h7]
  · rcases setup_paths env mg with h | ⟨r, e, h1, h2⟩ | ⟨r, pc, e, h1, h2, h3⟩ |
      ⟨r, pc, e, h1, h2, h3, h4⟩ | ⟨r, pc, data, m, e, h1, h2, h3, h4, h5⟩ |
      ⟨r, pc, data, m, h1, h2, h3, h4, h5⟩
    · rw [setup_of_no_reference env tfProvider mg h]
      exact Or.inr (Or.inl rfl)
    · rw [setup_of_get_error env tfProvider mg r e h1 h2]
      exact Or.inr (Or.inr ⟨e, _, by decide, rfl, rfl, rfl⟩)
    · rw [setup_of_track_error env tfProvider mg r pc e h1 h2 h3]
      exact Or.inr (Or.inr ⟨e, _, by decide, rfl, rfl, rfl⟩)
    · rw [setup_of_extract_error env tfProvider mg r pc e h1 h2 h3 h4]
      exact Or.inr (Or.inr ⟨e, _, by decide, rfl, rfl, rfl⟩)
    · rw [setup_of_unmarshal_error env tfProvider mg r pc data m e h1 h2 h3 h4 h5]
      exact Or.inr (Or.inr ⟨e, _, by decide, rfl, rfl, rfl⟩)
    · rcases diagnostics_cases (env.Configure tfProvider (some (buildConfiguration m))).1
        with ⟨h6, h7⟩ | h6
      · rw [setup_of_configure_error env tfProvider mg r pc data m h1 h2 h3 h4 h5 h6 h7]
        exact Or.inr (Or.inr ⟨_, _, by decide, rfl, rfl, rfl⟩)
      · rw [setup_of_configure_ok env tfProvider mg r pc data m h1 h2 h3 h4 h5 h6]
        exact Or.inl rfl

/-- C6 at one input per failing step: a missing reference, a failing
`client.Get`, a failing usage tracker, a failing credential extraction,
credentials with a boolean member, and a `Configure` that reports an error. -/
theorem failures_are_wrapped_witness :
    (TerraformSetupBuilder (envWith sampleCredentials) freshProvider mgWithoutRef).err =
        some (GoError.new "no providerConfigRef provided") ∧
    (TerraformSetupBuilder envGetFails freshProvider mgWithRef).err =
        some (GoError.wrap (GoError.new "ProviderConfig default not found")
          "cannot get referenced ProviderConfig") ∧
    (TerraformSetupBuilder envTrackFails freshProvider mgWithRef).err =
        some (GoError.wrap (GoError.new "cannot apply ProviderConfigUsage")
          "cannot track ProviderConfig usage") ∧
    (TerraformSetupBuilder envExtractFails freshProvider mgWithRef).err =
        some (GoError.wrap (GoError.new "cannot get credentials secret")
          "cannot extract credentials") ∧
    (TerraformSetupBuilder (envWith credentialsWithBool) freshProvider mgWithRef).err =
        some (GoError.wrap (json.typeError "bool" "string")
          "cannot unmarshal vRA credentials as JSON") ∧
    (TerraformSetupBuilder envConfigureFails freshProvider mgWithRef).err =
        some (GoError.wrap
          (GoError.new "failed to configure the provider: invalid refresh token")
          "failed to configure the no-fork GCP client") :=
  ⟨((failures_are_wrapped (envWith sampleCredentials) freshProvider mgWithoutRef).1 rfl).1,
    ((failures_are_wrapped envGetFails freshProvider mgWithRef).2.1 { Name := "default" }
      (GoError.new "ProviderConfig default not found") rfl rfl).1,
    ((failures_are_wrapped envTrackFails freshProvider mgWithRef).2.2.1 { Name := "default" }
      secretConfig (GoError.new "cannot apply ProviderConfigUsage") rfl rfl rfl).1,
    ((failures_are_wrapped envExtractFails freshProvider mgWithRef).2.2.2.1
      { Name := "default" } secretConfig (GoError.new "cannot get credentials secret")
      rfl rfl rfl rfl).1,
    ((failures_are_wrapped (envWith credentialsWithBool) freshProvider mgWithRef).2.2.2.2.1
      { Name := "default" } secretConfig credentialsWithBool [("insecure", ""), ("url", "u")]
      (json.typeError "bool" "string") rfl rfl rfl rfl (by decide)).1,
    (failures_are_wrapped envConfigureFails freshProvider mgWithRef).2.2.2.2.2.1
      { Name := "default" } secretConfig sampleCredentials
      [("tenant", "t"), ("refresh_token", "r1"), ("url", "https://vra.example")]
      rfl rfl rfl rfl (by decide) (by decide) (by decide)⟩

/-! ## The shared provider -/

/-- C7: the provider handed to `TerraformSetupBuilder` is configured by value.
For every call, and after every sequence of earlier calls of the setup
function on the same provider: the fields of the shared provider are the same
after the call as before it; every `Configure` of the call runs on a receiver
whose fields are those the shared provider had at the start; the `Meta` of a
successful call is the meta of the copy that `Configure` ran on, a function of
the provider's initial fields and this call's `Configuration`; and the
returned `Setup` is the one the call would have returned had no earlier call
been made. -/
theorem provider_configured_by_value (env : Env) (tfProvider : Provider) (mg : Managed)
    (earlier : List (Env × Managed)) :
    (TerraformSetupBuilder env tfProvider mg).tfProvider = tfProvider ∧
    providerAfter tfProvider earlier = tfProvider ∧
    (TerraformSetupBuilder env (providerAfter tfProvider earlier) mg).tfProvider = tfProvider ∧
    (∀ receiver ∈ configureReceivers
        (TerraformSetupBuilder env (providerAfter tfProvider earlier) mg).calls,
      receiver = tfProvider) ∧
    ((TerraformSetupBuilder env (providerAfter tfProvider earlier) mg).err = none →
      (TerraformSetupBuilder env (providerAfter tfProvider earlier) mg).ps.Meta =
        (env.Configure tfProvider
          (TerraformSetupBuilder env (providerAfter tfProvider earlier) mg).ps.Configuration).2.Meta)
      ∧
    (TerraformSetupBuilder env (providerAfter tfProvider earlier) mg).ps =
      (TerraformSetupBuilder env tfProvider mg).ps := by
  rw [providerAfter_eq]
  refine ⟨setup_tfProvider env tfProvider mg, rfl, setup_tfProvider env tfProvider mg, ?_, ?_,
    rfl⟩
  · rcases setup_paths env mg with h | ⟨r, e, h1, h2⟩ | ⟨r, pc, e, h1, h2, h3⟩ |
      ⟨r, pc, e, h1, h2, h3, h4⟩ | ⟨r, pc, data, m, e, h1, h2, h3, h4, h5⟩ |
      ⟨r, pc, data, m, h1, h2, h3, h4, h5⟩
    · rw [setup_of_no_reference env tfProvider mg h]
      intro receiver hmem
      simp [configureReceivers] at hmem
    · rw [setup_of_get_error env tfProvider mg r e h1 h2]
      intro receiver hmem
      simp [configureReceivers] at hmem
    · rw [setup_of_track_error env tfProvider mg r pc e h1 h2 h3]
      intro receiver hmem
      simp [configureReceivers] at hmem
    · rw [setup_of_extract_error env tfProvider mg r pc e h1 h2 h3 h4]
      intro receiver hmem
      simp [configureReceivers] at hmem
    · rw [setup_of_unmarshal_error env tfProvider mg r pc data m e h1 h2 h3 h4 h5]
      intro receiver hmem
      simp [configureReceivers] at hmem
    · rw [setup_of_unmarshal_ok env tfProvider mg r pc data m h1 h2 h3 h4 h5]
      intro receiver hmem
      simpa [configureReceivers] using hmem
  · rcases setup_paths env mg with h | ⟨r, e, h1, h2⟩ | ⟨r, pc, e, h1, h2, h3⟩ |
      ⟨r, pc, e, h1, h2, h3, h4⟩ | ⟨r, pc, data, m, e, h1, h2, h3, h4, h5⟩ |
      ⟨r, pc, data, m, h1, h2, h3, h4, h5⟩
    · rw [setup_of_no_reference env tfProvider mg h]
      intro hne
      exact Option.noConfusion hne
    · rw [setup_of_get_error env tfProvider mg r e h1 h2]
      intro hne
      exact Option.noConfusion hne
    · rw [setup_of_track_error env tfProvider mg r pc e h1 h2 h3]
      intro hne
      exact Option.noConfusion hne
    · rw [setup_of_extract_error env tfProvider mg r pc e h1 h2 h3 h4]
      intro hne
      exact Option.noConfusion hne
    · rw [setup_of_unmarshal_error env tfProvider mg r pc data m e h1 h2 h3 h4 h5]
      intro hne
      exact Option.noConfusion hne
    · rcases diagnostics_cases (env.Configure tfProvider (some (buildConfiguration m))).1
        with ⟨h6, h7⟩ | h6
      · rw [setup_of_configure_error env tfProvider mg r pc data m h1 h2 h3 h4 h5 h6 h7]
        intro hne
        exact Option.noConfusion hne
      · rw [setup_of_configure_ok env tfProvider mg r pc data m h1 h2 h3 h4 h5 h6]
        intro _
        rfl

/-- C7 at a second call that follows a call with other credentials: the
shared provider is still unconfigured and the second call's `Meta` is the
client for its own url. -/
theorem provider_configured_by_value_witness :
    (TerraformSetupBuilder (envWith sampleCredentials)
        (providerAfter freshProvider
          [(envWith (Payload.parsed (JSON.obj [("url", JSON.str "https://other.example")])),
            mgWithRef)])
        mgWithRef).err = none ∧
    (TerraformSetupBuilder (envWith sampleCredentials)
        (providerAfter freshProvider
          [(envWith (Payload.parsed (JSON.obj [("url", JSON.str "https://other.example")])),
            mgWithRef)])
        mgWithRef).ps.Meta = some "client:https://vra.example" ∧
    (TerraformSetupBuilder (envWith sampleCredentials)
        (providerAfter freshProvider
          [(envWith (Payload.parsed (JSON.obj [("url", JSON.str "https://other.example")])),
            mgWithRef)])
        mgWithRef).tfProvider = freshProvider :=
  ⟨by decide,
    (provider_configured_by_value (envWith sampleCredentials) freshProvider mgWithRef
      [(envWith (Payload.parsed (JSON.obj [("url", JSON.str "https://other.example")])),
        mgWithRef)]).2.2.2.2.1 (by decide),
    (provider_configured_by_value (envWith sampleCredentials) freshProvider mgWithRef
      [(envWith (Payload.parsed (JSON.obj [("url", JSON.str "https://other.example")])),
        mgWithRef)]).2.2.1⟩

/-! ## Success and what the returned `Setup` holds -/

/-- C8: the setup function returns a nil error exactly when the reference is
present, `client.Get`, usage tracking, credential extraction and unmarshalling
succeed, and the diagnostics of `Configure` are nil or hold no error.  On
success `Setup.Meta` is the `Meta()` of the configured copy; when `Configure`
reports an error the `Setup` carries the populated `Configuration` and a nil
`Meta`; on every failure before unmarshalling succeeds the `Setup` is the zero
value. -/
theorem nil_error_iff_all_steps_succeed (env : Env) (tfProvider : Provider) (mg : Managed) :
    ((TerraformSetupBuilder env tfProvider mg).err = none ↔
      ∃ configRef pc data m, mg.GetProviderConfigReference = some configRef ∧
        env.Get configRef.Name = Except.ok pc ∧ env.Track mg = none ∧
        env.CommonCredentialExtractor pc.Credentials.Source
          pc.Credentials.CommonCredentialSelectors = Except.ok data ∧
        json.Unmarshal data [] = (m, none) ∧
        ((env.Configure tfProvider (some (buildConfiguration m))).1 = none ∨ Diagnostics.HasError (env.Configure tfProvider (some (buildConfiguration m))).1 = false)) ∧
    ((TerraformSetupBuilder env tfProvider mg).err = none →
      (TerraformSetupBuilder env tfProvider mg).ps.Meta = (env.Configure tfProvider (TerraformSetupBuilder env tfProvider mg).ps.Configuration).2.Meta) ∧
    (∀ configRef pc data m, mg.GetProviderConfigReference = some configRef ∧
        env.Get configRef.Name = Except.ok pc ∧ env.Track mg = none ∧
        env.CommonCredentialExtractor pc.Credentials.Source
          pc.Credentials.CommonCredentialSelectors = Except.ok data ∧
        json.Unmarshal data [] = (m, none) →
      (env.Configure tfProvider (some (buildConfiguration m))).1 ≠ none → Diagnostics.HasError (env.Configure tfProvider (some (buildConfiguration m))).1 = true →
      (TerraformSetupBuilder env tfProvider mg).err ≠ none ∧ (TerraformSetupBuilder env tfProvider mg).ps.Configuration = some (buildConfiguration m) ∧ (TerraformSetupBuilder env tfProvider mg).ps.Meta = none) ∧
    ((¬ ∃ configRef pc data m, mg.GetProviderConfigReference = some configRef ∧
        env.Get configRef.Name = Except.ok pc ∧ env.Track mg = none ∧
        env.CommonCredentialExtractor pc.Credentials.Source
          pc.Credentials.CommonCredentialSelectors = Except.ok data ∧
        json.Unmarshal data [] = (m, none)) →
      (TerraformSetupBuilder env tfProvider mg).err ≠ none ∧ (TerraformSetupBuilder env tfProvider mg).ps = { Configuration := none, Meta := none }) := by
  refine ⟨⟨?_, ?_⟩, ?_, ?_, ?_⟩
  · rcases setup_paths env mg with h | ⟨r, e, h1, h2⟩ | ⟨r, pc, e, h1, h2, h3⟩ |
      ⟨r, pc, e, h1, h2, h3, h4⟩ | ⟨r, pc, data, m, e, h1, h2, h3, h4, h5⟩ |
      ⟨r, pc, data, m, h1, h2, h3, h4, h5⟩
    · rw [setup_of_no_reference env tfProvider mg h]
      intro hne
      exact Option.noConfusion hne
    · rw [setup_of_get_error env tfProvider mg r e h1 h2]
      intro hne
      exact Option.noConfusion hne
    · rw [setup_of_track_error env tfProvider mg r pc e h1 h2 h3]
      intro hne
      exact Option.noConfusion hne
    · rw [setup_of_extract_error env tfProvider mg r pc e h1 h2 h3 h4]
      intro hne
      exact Option.noConfusion hne
    · rw [setup_of_unmarshal_error env tfProvider mg r pc data m e h1 h2 h3 h4 h5]
      intro hne
      exact Option.noConfusion hne
    · rcases diagnostics_cases (env.Configure tfProvider (some (buildConfiguration m))).1 with ⟨h6, h7⟩ | h6
      · rw [setup_of_configure_error env tfProvider mg r pc data m h1 h2 h3 h4 h5 h6 h7]
        intro hne
        exact Option.noConfusion hne
      · intro _
        exact ⟨r, pc, data, m, h1, h2, h3, h4, h5, h6⟩
  · rintro ⟨r, pc, data, m, h1, h2, h3, h4, h5, h6⟩
    rw [setup_of_configure_ok env tfProvider mg r pc data m h1 h2 h3 h4 h5 h6]
  · rcases setup_paths env mg with h | ⟨r, e, h1, h2⟩ | ⟨r, pc, e, h1, h2, h3⟩ |
      ⟨r, pc, e, h1, h2, h3, h4⟩ | ⟨r, pc, data, m, e, h1, h2, h3, h4, h5⟩ |
      ⟨r, pc, data, m, h1, h2, h3, h4, h5⟩
    · rw [setup_of_no_reference env tfProvider mg h]
      intro hne
      exact Option.noConfusion hne
    · rw [setup_of_get_error env tfProvider mg r e h1 h2]
      intro hne
      exact Option.noConfusion hne
    · rw [setup_of_track_error env tfProvider mg r pc e h1 h2 h3]
      intro hne
      exact Option.noConfusion hne
    · rw [setup_of_extract_error env tfProvider mg r pc e h1 h2 h3 h4]
      intro hne
      exact Option.noConfusion hne
    · rw [setup_of_unmarshal_error env tfProvider mg r pc data m e h1 h2 h3 h4 h5]
      intro hne
      exact Option.noConfusion hne
    · rcases diagnostics_cases (env.Configure tfProvider (some (buildConfiguration m))).1 with ⟨h6, h7⟩ | h6
      · rw [setup_of_configure_error env tfProvider mg r pc data m h1 h2 h3 h4 h5 h6 h7]
        intro hne
        exact Option.noConfusion hne
      · rw [setup_of_configure_ok env tfProvider mg r pc data m h1 h2 h3 h4 h5 h6]
        intro _
        rfl
  · rintro r pc data m ⟨h1, h2, h3, h4, h5⟩ h6 h7
    rw [setup_of_configure_error env tfProvider mg r pc data m h1 h2 h3 h4 h5 h6 h7]
    exact ⟨fun hne => Option.noConfusion hne, rfl, rfl⟩
  · intro hno
    rcases setup_paths env mg with h | ⟨r, e, h1, h2⟩ | ⟨r, pc, e, h1, h2, h3⟩ |
      ⟨r, pc, e, h1, h2, h3, h4⟩ | ⟨r, pc, data, m, e, h1, h2, h3, h4, h5⟩ |
      ⟨r, pc, data, m, h1, h2, h3, h4, h5⟩
    · rw [setup_of_no_reference env tfProvider mg h]
      exact ⟨fun hne => Option.noConfusion hne, rfl⟩
    · rw [setup_of_get_error env tfProvider mg r e h1 h2]
      exact ⟨fun hne => Option.noConfusion hne, rfl⟩
    · rw [setup_of_track_error env tfProvider mg r pc e h1 h2 h3]
      exact ⟨fun hne => Option.noConfusion hne, rfl⟩
    · rw [setup_of_extract_error env tfProvider mg r pc e h1 h2 h3 h4]
      exact ⟨fun hne => Option.noConfusion hne, rfl⟩
    · rw [setup_of_unmarshal_error env tfProvider mg r pc data m e h1 h2 h3 h4 h5]
      exact ⟨fun hne => Option.noConfusion hne, rfl⟩
    · exact absurd ⟨r, pc, data, m, h1, h2, h3, h4, h5⟩ hno

/-- C8 at three inputs: a `Configure` that only warns (success, `Meta` set), a
`Configure` that reports an error (`Configuration` kept, `Meta` nil), and
credentials with a boolean member (zero `Setup`). -/
theorem nil_error_iff_all_steps_succeed_witness :
    ((TerraformSetupBuilder { envWith sampleCredentials with Configure := configureWarns }
        freshProvider mgWithRef).err = none ∧
      (TerraformSetupBuilder { envWith sampleCredentials with Configure := configureWarns }
        freshProvider mgWithRef).ps.Meta = some "client") ∧
    ((TerraformSetupBuilder envConfigureFails freshProvider mgWithRef).err ≠ none ∧
      (TerraformSetupBuilder envConfigureFails freshProvider mgWithRef).ps.Configuration =
        some [("refresh_token", "r1"), ("url", "https://vra.example")] ∧
      (TerraformSetupBuilder envConfigureFails freshProvider mgWithRef).ps.Meta = none) ∧
    ((TerraformSetupBuilder (envWith credentialsWithBool) freshProvider mgWithRef).err ≠ none ∧
      (TerraformSetupBuilder (envWith credentialsWithBool) freshProvider mgWithRef).ps =
        { Configuration := none, Meta := none }) :=
  ⟨⟨(nil_error_iff_all_steps_succeed
        { envWith sampleCredentials with Configure := configureWarns } freshProvider
        mgWithRef).1.2
      ⟨{ Name := "default" }, secretConfig, sampleCredentials,
        [("tenant", "t"), ("refresh_token", "r1"), ("url", "https://vra.example")],
        rfl, rfl, rfl, rfl, by decide, Or.inr (by decide)⟩,
      by decide⟩,
    (nil_error_iff_all_steps_succeed envConfigureFails freshProvider mgWithRef).2.2.1
      { Name := "default" } secretConfig sampleCredentials
      [("tenant", "t"), ("refresh_token", "r1"), ("url", "https://vra.example")]
      ⟨rfl, rfl, rfl, rfl, by decide⟩ (by decide) (by decide),
    (nil_error_iff_all_steps_succeed (envWith credentialsWithBool) freshProvider
      mgWithRef).2.2.2
      (fun ⟨_, _, data, _, _, hget, _, hextract, hjson⟩ => by
        have hpc := Except.ok.inj hget
        subst hpc
        have hdata := Except.ok.inj hextract
        subst hdata
        have hsnd : (json.Unmarshal credentialsWithBool []).2 = none :=
          congrArg Prod.snd hjson
        exact absurd hsnd (by decide))⟩

/-! ## Credentials that do not decode -/

/-- C9, as stated, fails at the payload `null`: it is not a JSON object, yet
it unmarshals without error (the credentials map becomes nil), the returned
`Setup` has an empty, non-nil `Configuration`, `Configure` is invoked with it,
and the setup function returns a nil error. -/
theorem null_credentials_are_accepted :
    Payload.isObject (Payload.parsed JSON.null) = false ∧
    (envWith (Payload.parsed JSON.null)).CommonCredentialExtractor
        secretConfig.Credentials.Source secretConfig.Credentials.CommonCredentialSelectors =
      Except.ok (Payload.parsed JSON.null) ∧
    (TerraformSetupBuilder (envWith (Payload.parsed JSON.null)) freshProvider mgWithRef).err =
      none ∧
    (TerraformSetupBuilder (envWith (Payload.parsed JSON.null)) freshProvider
      mgWithRef).ps.Configuration = some [] ∧
    configureCalls
      (TerraformSetupBuilder (envWith (Payload.parsed JSON.null)) freshProvider mgWithRef).calls =
      [some []] ∧
    ¬ ((∃ e, (TerraformSetupBuilder (envWith (Payload.parsed JSON.null)) freshProvider
          mgWithRef).err = some (GoError.wrap e "cannot unmarshal vRA credentials as JSON")) ∧
        (TerraformSetupBuilder (envWith (Payload.parsed JSON.null)) freshProvider
          mgWithRef).ps.Configuration = none ∧
        configureCalls (TerraformSetupBuilder (envWith (Payload.parsed JSON.null)) freshProvider
          mgWithRef).calls = []) := by
  refine ⟨rfl, rfl, by decide, by decide, by decide, ?_⟩
  rintro ⟨_, hcfg, _⟩
  exact absurd hcfg (by decide)

/-- C9, amended: when the steps up to credential extraction succeed and the
extracted payload is a JSON object with a member (recognised key or not) whose
value is a boolean, a number, an array or an object, or is not a JSON object
and not the JSON literal null (bytes that are not JSON, or a JSON string,
number, boolean or array), the setup function fails with the decoder's error
wrapped under "cannot unmarshal vRA credentials as JSON", returns a `Setup`
with a nil `Configuration`, and does not invoke `Configure`. -/
theorem undecodable_credentials_fail (env : Env) (tfProvider : Provider) (mg : Managed)
    (configRef : Reference) (pc : ProviderConfig) (data : Payload)
    (href : mg.GetProviderConfigReference = some configRef)
    (hget : env.Get configRef.Name = Except.ok pc)
    (htrack : env.Track mg = none)
    (hextract : env.CommonCredentialExtractor pc.Credentials.Source
      pc.Credentials.CommonCredentialSelectors = Except.ok data)
    (hdata : data.hasNonStringMember = true ∨
      (data.isObject = false ∧ data.isNull = false)) :
    (∃ e, (TerraformSetupBuilder env tfProvider mg).err =
        some (GoError.wrap e "cannot unmarshal vRA credentials as JSON")) ∧
      (TerraformSetupBuilder env tfProvider mg).ps.Configuration = none ∧
      configureCalls (TerraformSetupBuilder env tfProvider mg).calls = [] := by
  obtain ⟨m, e, hjson⟩ := unmarshal_rejects data hdata
  rw [setup_of_unmarshal_error env tfProvider mg configRef pc data m e href hget htrack hextract
    hjson]
  exact ⟨⟨e, rfl⟩, rfl, rfl⟩

/-- C9, amended, at the credentials object with a string `url` and a
boolean `insecure`. -/
theorem undecodable_credentials_fail_witness :
    (credentialsWithBool.hasNonStringMember = true ∨
      (credentialsWithBool.isObject = false ∧ credentialsWithBool.isNull = false)) ∧
    ((∃ e, (TerraformSetupBuilder (envWith credentialsWithBool) freshProvider mgWithRef).err =
        some (GoError.wrap e "cannot unmarshal vRA credentials as JSON")) ∧
      (TerraformSetupBuilder (envWith credentialsWithBool) freshProvider
        mgWithRef).ps.Configuration = none ∧
      configureCalls
        (TerraformSetupBuilder (envWith credentialsWithBool) freshProvider mgWithRef).calls =
        []) :=
  ⟨Or.inl rfl,
    undecodable_credentials_fail (envWith credentialsWithBool) freshProvider mgWithRef
      { Name := "default" } secretConfig credentialsWithBool rfl rfl rfl rfl (Or.inl rfl)⟩

/-! ## The provider schema loader -/

/-- C10, as stated, fails at a document whose only provider schema is JSON
null: it parses, it holds one entry, and `getProviderSchema` neither returns
an error nor a provider; it panics on the nil entry. -/
theorem null_schema_entry_panics :
    (∃ ps, sampleUnmarshalJSON nullSchemaText = Except.ok ps ∧ GoMap.len ps.Schemas = 1) ∧
    getProviderSchema sampleUnmarshalJSON sampleGetV2ResourceMap nullSchemaText =
      Exec.panics Panic.nilPointerDereference ∧
    ¬ ∃ provider, getProviderSchema sampleUnmarshalJSON sampleGetV2ResourceMap nullSchemaText =
      Exec.returns (some provider, none) := by
  have hrun : getProviderSchema sampleUnmarshalJSON sampleGetV2ResourceMap nullSchemaText =
      Exec.panics Panic.nilPointerDereference := by decide
  refine ⟨⟨{ FormatVersion := "1.0",
              Schemas := [("registry.terraform.io/vmware/vra", none)] }, rfl, rfl⟩,
    hrun, ?_⟩
  rintro ⟨provider, h⟩
  rw [hrun] at h
  exact Exec.noConfusion h

/-- C10, amended: for every input `s` that parses as a provider-schemas
document with `n` entries, `getProviderSchema s` returns an error if and only
if `n` is not 1, and then the message is "there should exactly be 1 provider
schema but there are n" with `n` in decimal (also for `n = 0`); when `n = 1`,
the single entry is a schema (not JSON null) and the conversion of that
schema's `ResourceSchemas` returns, it returns a nil error and a provider
whose `ResourcesMap` is that conversion, and when the conversion panics so
does `getProviderSchema`.  An `s` that does not parse yields no error value:
the function panics with the parse error. -/
theorem schema_count_decides (UnmarshalJSON : String → Except GoError ProviderSchemas)
    (GetV2ResourceMap : GoMap (Option SchemaDocument) → Exec (GoMap Resource)) (s : String) :
    (∀ err, UnmarshalJSON s = Except.error err →
      getProviderSchema UnmarshalJSON GetV2ResourceMap s = Exec.panics (Panic.value err)) ∧
    (∀ ps, UnmarshalJSON s = Except.ok ps →
      ((∃ provider e, getProviderSchema UnmarshalJSON GetV2ResourceMap s =
          Exec.returns (provider, some e)) ↔ GoMap.len ps.Schemas ≠ 1) ∧
      (GoMap.len ps.Schemas ≠ 1 →
        getProviderSchema UnmarshalJSON GetV2ResourceMap s =
          Exec.returns (none, some (GoError.new
            ("there should exactly be 1 provider schema but there are " ++
              toString (GoMap.len ps.Schemas))))) ∧
      (∀ name v resources, ps.Schemas = [(name, some v)] →
        GetV2ResourceMap v.ResourceSchemas = Exec.returns resources →
        getProviderSchema UnmarshalJSON GetV2ResourceMap s =
          Exec.returns (some { ResourcesMap := resources }, none)) ∧
      (∀ name v p, ps.Schemas = [(name, some v)] →
        GetV2ResourceMap v.ResourceSchemas = Exec.panics p →
        getProviderSchema UnmarshalJSON GetV2ResourceMap s = Exec.panics p)) := by
  constructor
  · intro err herr
    unfold getProviderSchema
    rw [herr]
  · intro ps hps
    have hne : GoMap.len ps.Schemas ≠ 1 →
        getProviderSchema UnmarshalJSON GetV2ResourceMap s =
          Exec.returns (none, some (GoError.new
            ("there should exactly be 1 provider schema but there are " ++
              toString (GoMap.len ps.Schemas)))) := by
      intro hn
      unfold getProviderSchema
      rw [hps]
      simp only [hn, ne_eq, not_false_eq_true, if_true, errors.Errorf]
    have hone : ∀ name v, ps.Schemas = [(name, some v)] →
        getProviderSchema UnmarshalJSON GetV2ResourceMap s =
          providerOf (GetV2ResourceMap v.ResourceSchemas) := by
      intro name v hs
      unfold getProviderSchema
      rw [hps]
      have hlen : GoMap.len ps.Schemas = 1 := by rw [hs]; rfl
      simp only [hlen, ne_eq, not_true_eq_false, if_false]
      rw [hs]
    have hnoerr : ∀ (c : Exec (GoMap Resource)) provider e,
        providerOf c ≠ Exec.returns (provider, some e) := by
      intro c provider e hret
      cases c with
      | returns resources =>
        simp only [providerOf, Exec.returns.injEq, Prod.mk.injEq] at hret
        exact Option.noConfusion hret.2
      | panics p => exact Exec.noConfusion hret
    refine ⟨⟨?_, ?_⟩, hne, ?_, ?_⟩
    · rintro ⟨provider, e, hret⟩ hlen
      unfold getProviderSchema at hret
      rw [hps] at hret
      simp only [hlen, ne_eq, not_true_eq_false, if_false] at hret
      cases hs : ps.Schemas with
      | nil =>
        rw [hs] at hret
        exact hnoerr _ provider e hret
      | cons entry rest =>
        obtain ⟨name, v⟩ := entry
        rw [hs] at hret
        cases v with
        | none => exact Exec.noConfusion hret
        | some v => exact hnoerr _ provider e hret
    · intro hn
      exact ⟨none, _, hne hn⟩
    · intro name v resources hs hconv
      rw [hone name v hs, hconv]
      rfl
    · intro name v p hs hconv
      rw [hone name v hs, hconv]
      rfl

/-- C10, amended, at four documents: one without provider schemas, one with
one provider schema, one whose provider schema holds a null resource schema
(the conversion panics, and so does the function), and a text that does not
parse. -/
theorem schema_count_decides_witness :
    getProviderSchema sampleUnmarshalJSON sampleGetV2ResourceMap noSchemaText =
      Exec.returns (none, some (GoError.new
        "there should exactly be 1 provider schema but there are 0")) ∧
    getProviderSchema sampleUnmarshalJSON sampleGetV2ResourceMap oneSchemaText =
      Exec.returns
        (some { ResourcesMap := [("vra_project", { text := "version 0" })] }, none) ∧
    getProviderSchema sampleUnmarshalJSON sampleGetV2ResourceMap nullResourceText =
      Exec.panics Panic.nilPointerDereference ∧
    getProviderSchema sampleUnmarshalJSON sampleGetV2ResourceMap "" =
      Exec.panics (Panic.value (GoError.new "unexpected end of JSON input")) :=
  ⟨((schema_count_decides sampleUnmarshalJSON sampleGetV2ResourceMap noSchemaText).2
      { FormatVersion := "1.0", Schemas := [] } rfl).2.1 (by decide),
    ((schema_count_decides sampleUnmarshalJSON sampleGetV2ResourceMap oneSchemaText).2
      { FormatVersion := "1.0",
        Schemas := [("registry.terraform.io/vmware/vra",
          some { ResourceSchemas := [("vra_project", some { text := "version 0" })] })] }
      rfl).2.2.1 "registry.terraform.io/vmware/vra"
      { ResourceSchemas := [("vra_project", some { text := "version 0" })] }
      [("vra_project", { text := "version 0" })] rfl rfl,
    ((schema_count_decides sampleUnmarshalJSON sampleGetV2ResourceMap nullResourceText).2
      { FormatVersion := "1.0",
        Schemas := [("registry.terraform.io/vmware/vra",
          some { ResourceSchemas := [("vra_project", none)] })] }
      rfl).2.2.2 "registry.terraform.io/vmware/vra"
      { ResourceSchemas := [("vra_project", none)] } Panic.nilPointerDereference rfl rfl,
    (schema_count_decides sampleUnmarshalJSON sampleGetV2ResourceMap "").1
      (GoError.new "unexpected end of JSON input") rfl⟩

end ProviderVra
